import Mathlib

set_option maxRecDepth 2000

/-!
Verification development for the bus-tracker SIRI-VM feed pipeline.

The embedding covers:
* `src/bods-api/app/xml_generator.py` — `format_datetime`,
  `create_vehicle_activity_xml`, `create_siri_vehicle_monitoring_response`;
* `src/bods-api/app/main.py` — the query-parameter filter stage of the
  `vehicle_monitoring` endpoint;
* `src/api/main.py` — the SIRI-VM models, `create_siri_xml`,
  `get_vehicle_data` (the live snapshot query) and `get_vehicle_monitoring`.

Python `datetime` values are embedded as explicit component records
(`PyDatetime`); Python `float` values as sign/integer-part/decimal-digit
records (`PyFloat`), matching the decimal text `str()` produces for the
values this program handles.  XML `ElementTree` trees are embedded as the
inductive `XNode`; the final `minidom.toprettyxml` step only inserts
inter-element whitespace, so properties are stated on the tree.
Clock reads (`datetime.utcnow()`, SQL `NOW()`) are passed as parameters.
-/

/-- One decimal digit rendered as a character ('0'..'9'). -/
def digitChar (n : Nat) : Char := Char.ofNat (48 + n % 10)

/-- Zero-padded fixed-width decimal rendering, most significant digit first:
the digit at distance `w` from the end is `(n / 10 ^ w) % 10`.  This is the
semantics of `strftime` width-`w` numeric directives for in-range inputs. -/
def padNum : Nat → Nat → List Char
  | 0, _ => []
  | w + 1, n => digitChar (n / 10 ^ w) :: padNum w n

/-- Numeric value of a decimal digit character. -/
def charVal (c : Char) : Nat := c.toNat - 48

/-- Digits of a nonnegative integer, by structural recursion on a fuel
bound (any `fuel ≥ n` yields the digits of `n`). -/
def natCharsAux : Nat → Nat → List Char
  | 0, n => [digitChar n]
  | fuel + 1, n =>
    if n < 10 then [digitChar n] else natCharsAux fuel (n / 10) ++ [digitChar n]

/-- Python `str` of a nonnegative integer (no leading zeros). -/
def natChars (n : Nat) : List Char := natCharsAux n n

/-- Embedding of a Python `float` as the decimal number its `str()` prints:
sign, integer part, fractional digits.  `str(0.0) = "0.0"` corresponds to
`⟨false, 0, [0]⟩`. -/
structure PyFloat where
  neg : Bool
  intPart : Nat
  frac : List Nat
deriving DecidableEq, Repr

/-- Digits of a `PyFloat` are decimal digits. -/
def PyFloat.wf (f : PyFloat) : Prop := ∀ d ∈ f.frac, d < 10

instance (f : PyFloat) : Decidable f.wf := by unfold PyFloat.wf; infer_instance

/-- Python `str()` on a float: sign, integer part, point, fractional digits. -/
def PyFloat.pyStr (f : PyFloat) : String :=
  ⟨(if f.neg then ['-'] else []) ++ (natChars f.intPart ++ '.' :: f.frac.map digitChar)⟩

/-- Python truthiness of a float: `0.0` and `-0.0` are falsy. -/
def PyFloat.truthy (f : PyFloat) : Bool :=
  !(f.intPart == 0 && f.frac.all (· == 0))

/-- The float `0.0` (prints as "0.0", is falsy). -/
def pyFloatZero : PyFloat := ⟨false, 0, [0]⟩

/-- Python truthiness of an `Optional[float]`. -/
def optFloatTruthy : Option PyFloat → Bool
  | some f => f.truthy
  | none => false

/-- Python truthiness of an `Optional[str]`: `None` and `""` are falsy. -/
def optStrTruthy : Option String → Bool
  | some s => !s.isEmpty
  | none => false

/-- Embedding of a Python `datetime`: calendar components plus whether the
value is timezone-aware (the code only ever uses UTC awareness). -/
structure PyDatetime where
  year : Nat
  month : Nat
  day : Nat
  hour : Nat
  minute : Nat
  second : Nat
  microsecond : Nat
  aware : Bool
deriving DecidableEq, Repr

/-- Strictly monotone numeric key for the chronological order of valid
datetimes (lexicographic in the components). -/
def PyDatetime.lexVal (d : PyDatetime) : Nat :=
  (((((d.year * 13 + d.month) * 32 + d.day) * 24 + d.hour) * 60 + d.minute) * 60
      + d.second) * 1000000 + d.microsecond

/-- Components lie in the ranges the fixed-width rendering inverts on
(Python itself enforces year ≤ 9999 etc.). -/
def PyDatetime.wf (d : PyDatetime) : Prop :=
  d.year < 10000 ∧ d.month < 100 ∧ d.day < 100 ∧ d.hour < 100 ∧
    d.minute < 100 ∧ d.second < 100 ∧ d.microsecond < 1000000

instance (d : PyDatetime) : Decidable d.wf := by unfold PyDatetime.wf; infer_instance

/-- Python `datetime.isoformat()`: `YYYY-MM-DDTHH:MM:SS`, a `.ffffff`
microsecond part only when `microsecond ≠ 0`, and a `+00:00` offset only
for aware (UTC) values. -/
def PyDatetime.isoformat (d : PyDatetime) : String :=
  ⟨padNum 4 d.year ++
    ('-' :: (padNum 2 d.month ++
      ('-' :: (padNum 2 d.day ++
        ('T' :: (padNum 2 d.hour ++
          (':' :: (padNum 2 d.minute ++
            (':' :: (padNum 2 d.second ++
              ((if d.microsecond == 0 then [] else '.' :: padNum 6 d.microsecond) ++
               (if d.aware then ['+', '0', '0', ':', '0', '0'] else []))))))))))))⟩

/-- Embedded XML element tree (the `xml.etree.ElementTree` fragment the
encoders build).  Element text is represented as a leading `text` child. -/
inductive XNode where
  | elem (name : String) (attrs : List (String × String)) (children : List XNode)
  | text (s : String)
deriving Repr

/-- Name of an element node (text nodes have no name). -/
def XNode.named (n : String) : XNode → Bool
  | .elem m _ _ => m == n
  | .text _ => false

/-- Children of an element node. -/
def XNode.children : XNode → List XNode
  | .elem _ _ cs => cs
  | .text _ => []

/-- Attributes of an element node. -/
def XNode.attrs : XNode → List (String × String)
  | .elem _ a _ => a
  | .text _ => []

/-- The `.text` of an element, i.e. its leading text child. -/
def XNode.innerText : XNode → Option String
  | .elem _ _ (.text s :: _) => some s
  | _ => none

/-- First child element with the given tag. -/
def XNode.findChild (x : XNode) (n : String) : Option XNode :=
  (x.children.filter (XNode.named n)).head?

/-- Whether some child element with the given tag exists. -/
def XNode.hasChild (x : XNode) (n : String) : Bool :=
  !(x.children.filter (XNode.named n)).isEmpty

/-- Text content of the first child element with the given tag. -/
def XNode.childText (x : XNode) (n : String) : Option String :=
  (x.findChild n).bind XNode.innerText

/-- Walk down a path of child tags. -/
def XNode.descend (x : XNode) : List String → Option XNode
  | [] => some x
  | n :: p => match x.findChild n with
    | some c => c.descend p
    | none => none

/-- Leaf element holding only text (`SubElement` + `.text = t`). -/
def leafEl (n : String) (t : String) : XNode := .elem n [] [.text t]

/-- The elements a truthiness-guarded optional string field contributes:
`if x: SubElement(..).text = x` emits nothing for `None` or `""`. -/
def strOptLeaf (tag : String) (o : Option String) : List XNode :=
  match o with
  | some s => if !s.isEmpty then [leafEl tag s] else []
  | none => []

/-- The elements an optional datetime field contributes under `if x:`
(datetimes are always truthy, so this is a presence test), serialized by
`ser`. -/
def dtOptLeaf (ser : PyDatetime → String) (tag : String) (o : Option PyDatetime) :
    List XNode :=
  match o with
  | some t => [leafEl tag (ser t)]
  | none => []

/-- The elements an optional float field contributes under an
`is not None` test. -/
def floatOptLeaf (tag : String) (o : Option PyFloat) : List XNode :=
  match o with
  | some v => [leafEl tag v.pyStr]
  | none => []

/-- The elements an optional float field contributes under a Python
truthiness test `if x:` — `None` and `0.0` both emit nothing. -/
def floatOptLeafTruthy (tag : String) (o : Option PyFloat) : List XNode :=
  match o with
  | some v => if v.truthy then [leafEl tag v.pyStr] else []
  | none => []

/-- The number of `VehicleActivity` children of the
`VehicleMonitoringDelivery` of a SIRI document. -/
def countActivities (x : XNode) : Nat :=
  match x.descend ["ServiceDelivery", "VehicleMonitoringDelivery"] with
  | some vmd => (vmd.children.filter (XNode.named "VehicleActivity")).length
  | none => 0

/-- Structural validity of a SIRI-VM document: `Siri` root carrying
version "2.0", one `ServiceDelivery` envelope, one
`VehicleMonitoringDelivery` inside it. -/
def siriStructOk (x : XNode) : Bool :=
  x.named "Siri" && (x.attrs.lookup "version" == some "2.0") &&
    match x.children.filter (XNode.named "ServiceDelivery") with
    | [sd] =>
      match sd.children.filter (XNode.named "VehicleMonitoringDelivery") with
      | [_] => true
      | _ => false
    | _ => false

/-- The element tags whose text is a serialized datetime in SIRI-VM
documents of this program. -/
def dtFieldNames : List String :=
  ["RecordedAtTime", "ValidUntilTime", "ResponseTimestamp",
   "OriginAimedDepartureTime", "DestinationAimedArrivalTime"]

/-- All serialized-datetime texts of a document (fuel-bounded descent;
the documents here have depth at most 6). -/
def datetimeTexts : Nat → XNode → List String
  | 0, _ => []
  | _ + 1, .text _ => []
  | fuel + 1, .elem n _ cs =>
    (if n ∈ dtFieldNames then
      (match cs with | .text s :: _ => [s] | _ => [])
     else []) ++ cs.flatMap (datetimeTexts fuel)

namespace BodsApi

/-- Embeds `VehicleData` of `src/bods-api/app/models.py` (lines 78-98). -/
structure VehicleData where
  vehicle_ref : String
  line_ref : String
  direction_ref : String
  published_line_name : String
  operator_ref : String
  origin_ref : String
  origin_name : String
  destination_ref : String
  destination_name : Option String
  origin_aimed_departure_time : Option PyDatetime
  destination_aimed_arrival_time : Option PyDatetime
  latitude : PyFloat
  longitude : PyFloat
  bearing : PyFloat
  velocity : Option PyFloat
  occupancy : Option String
  block_ref : String
  vehicle_journey_ref : String
  recorded_at_time : PyDatetime
  valid_until_time : PyDatetime
deriving DecidableEq, Repr

/-- Embeds `format_datetime` of `src/bods-api/app/xml_generator.py`
(lines 8-10): `dt.strftime('%Y-%m-%dT%H:%M:%S.%f')[:-3] + 'Z'` — dropping
the last three of the six `%f` digits leaves the millisecond digits
`microsecond / 1000`. -/
def format_datetime (dt : PyDatetime) : String :=
  ⟨padNum 4 dt.year ++
    ('-' :: (padNum 2 dt.month ++
      ('-' :: (padNum 2 dt.day ++
        ('T' :: (padNum 2 dt.hour ++
          (':' :: (padNum 2 dt.minute ++
            (':' :: (padNum 2 dt.second ++
              ('.' :: (padNum 3 (dt.microsecond / 1000) ++ ['Z']))))))))))))⟩

/-- Embeds `create_vehicle_activity_xml` of
`src/bods-api/app/xml_generator.py` (lines 13-111), including its
truthiness guards: `if item_id:`, `if vehicle.destination_name:`,
`if vehicle.origin_aimed_departure_time:` (datetimes are always truthy,
so this is a `None` test), `if vehicle.velocity is not None:`,
`if vehicle.occupancy:`. -/
def mvjElem (vehicle : VehicleData) : XNode :=
  XNode.elem "MonitoredVehicleJourney" []
    ([leafEl "LineRef" vehicle.line_ref,
      leafEl "DirectionRef" vehicle.direction_ref,
      leafEl "PublishedLineName" vehicle.published_line_name,
      leafEl "OperatorRef" vehicle.operator_ref,
      leafEl "OriginRef" vehicle.origin_ref,
      leafEl "OriginName" vehicle.origin_name,
      leafEl "DestinationRef" vehicle.destination_ref]
     ++ strOptLeaf "DestinationName" vehicle.destination_name
     ++ dtOptLeaf format_datetime "OriginAimedDepartureTime"
          vehicle.origin_aimed_departure_time
     ++ dtOptLeaf format_datetime "DestinationAimedArrivalTime"
          vehicle.destination_aimed_arrival_time
     ++ [XNode.elem "VehicleLocation" []
          [leafEl "Longitude" vehicle.longitude.pyStr,
           leafEl "Latitude" vehicle.latitude.pyStr],
         leafEl "Bearing" vehicle.bearing.pyStr]
     ++ floatOptLeaf "Velocity" vehicle.velocity
     ++ strOptLeaf "Occupancy" vehicle.occupancy
     ++ [leafEl "BlockRef" vehicle.block_ref,
         leafEl "VehicleJourneyRef" vehicle.vehicle_journey_ref,
         leafEl "VehicleRef" vehicle.vehicle_ref])

/-- Embeds the per-activity part of `create_vehicle_activity_xml`:
timestamps, the guarded `ItemIdentifier`, and the journey element. -/
def create_vehicle_activity_xml (vehicle : VehicleData) (item_id : String) : XNode :=
  XNode.elem "VehicleActivity" []
    ([leafEl "RecordedAtTime" (format_datetime vehicle.recorded_at_time),
      leafEl "ValidUntilTime" (format_datetime vehicle.valid_until_time)]
     ++ strOptLeaf "ItemIdentifier" (some item_id)
     ++ [mvjElem vehicle])

/-- Embeds `create_siri_vehicle_monitoring_response` of
`src/bods-api/app/xml_generator.py` (lines 114-159).  The four ambient
clock reads (`datetime.utcnow()` for the two response timestamps,
`datetime.utcnow() + timedelta(seconds=30)` for the delivery validity and
`int(datetime.utcnow().timestamp())` inside the item identifiers) are the
parameters `sdNow`, `vmdNow`, `vmdValidUntil` and `epochTs`. -/
def vmdElem (vehicles : List VehicleData) (producer_ref : String)
    (vmdNow vmdValidUntil : PyDatetime) (epochTs : Nat) : XNode :=
  XNode.elem "VehicleMonitoringDelivery" []
    ([leafEl "ResponseTimestamp" (format_datetime vmdNow),
      leafEl "ProducerRef" producer_ref,
      leafEl "ValidUntilTime" (format_datetime vmdValidUntil)]
     ++ vehicles.enum.map (fun p =>
          create_vehicle_activity_xml p.2
            ("MIDL_" ++ toString (p.1 + 1) ++ "_" ++ toString epochTs)))

/-- The `ServiceDelivery` envelope of the bods-api response. -/
def serviceDeliveryElem (vehicles : List VehicleData) (producer_ref : String)
    (sdNow vmdNow vmdValidUntil : PyDatetime) (epochTs : Nat) : XNode :=
  XNode.elem "ServiceDelivery" []
    [leafEl "ResponseTimestamp" (format_datetime sdNow),
     leafEl "ProducerRef" producer_ref,
     vmdElem vehicles producer_ref vmdNow vmdValidUntil epochTs]

/-- The whole document: `Siri` root with the schema attributes. -/
def create_siri_vehicle_monitoring_response (vehicles : List VehicleData)
    (producer_ref : String) (sdNow vmdNow vmdValidUntil : PyDatetime)
    (epochTs : Nat) : XNode :=
  XNode.elem "Siri"
    [("version", "2.0"), ("xmlns", "http://www.siri.org.uk/siri"),
     ("xmlns:xsi", "http://www.w3.org/2001/XMLSchema-instance"),
     ("xsi:schemaLocation",
      "http://www.siri.org.uk/siri http://www.siri.org.uk/schema/2.0/xsd/siri.xsd")]
    [serviceDeliveryElem vehicles producer_ref sdNow vmdNow vmdValidUntil epochTs]

/-- The optional query parameters of the `/vehicle-monitoring` endpoint
(`src/bods-api/app/main.py` lines 62-68). -/
structure Criteria where
  LineRef : Option String
  OperatorRef : Option String
  VehicleRef : Option String
  MaximumNumberOfVehicles : Option Int
deriving Repr

/-- Python list slicing `l[:n]`: a nonnegative bound takes a prefix, a
negative bound `-k` drops the last `k` entries. -/
def pySliceTo (l : List α) (n : Int) : List α :=
  if 0 ≤ n then l.take n.toNat else l.take (l.length - (-n).toNat)

/-- One truthiness-guarded exact-match filter step, e.g.
`if LineRef: vehicles_data = [v for v in vehicles_data if v.line_ref == LineRef]`. -/
def refFilterStep (sel : VehicleData → String) (crit : Option String)
    (vs : List VehicleData) : List VehicleData :=
  match crit with
  | some s => if s.isEmpty then vs else vs.filter (fun v => sel v == s)
  | none => vs

/-- The three reference filters of the `vehicle_monitoring` endpoint
(`src/bods-api/app/main.py` lines 90-97), applied line → operator →
vehicle. -/
def refFilters (vehicles_data : List VehicleData) (c : Criteria) : List VehicleData :=
  refFilterStep VehicleData.vehicle_ref c.VehicleRef
    (refFilterStep VehicleData.operator_ref c.OperatorRef
      (refFilterStep VehicleData.line_ref c.LineRef vehicles_data))

/-- The whole filter stage of the `vehicle_monitoring` endpoint
(`src/bods-api/app/main.py` lines 90-100): the three reference filters
followed by the truthiness-guarded truncation
`if MaximumNumberOfVehicles: vehicles_data = vehicles_data[:MaximumNumberOfVehicles]`. -/
def applyFilters (vehicles_data : List VehicleData) (c : Criteria) : List VehicleData :=
  let v3 := refFilters vehicles_data c
  match c.MaximumNumberOfVehicles with
  | some n => if n == 0 then v3 else pySliceTo v3 n
  | none => v3

/-- The data path of the `vehicle_monitoring` endpoint
(`src/bods-api/app/main.py` lines 82-109): filter the snapshot, then
encode it with producer "MIDLANDBUS". -/
def vehicle_monitoring (vehicles_data : List VehicleData) (c : Criteria)
    (sdNow vmdNow vmdValidUntil : PyDatetime) (epochTs : Nat) : XNode :=
  create_siri_vehicle_monitoring_response (applyFilters vehicles_data c)
    "MIDLANDBUS" sdNow vmdNow vmdValidUntil epochTs

end BodsApi

namespace Api

/-- Embeds `VehicleLocation` of `src/api/main.py` (lines 25-27). -/
structure VehicleLocation where
  longitude : PyFloat
  latitude : PyFloat
deriving DecidableEq, Repr

/-- Embeds `MonitoredVehicleJourney` of `src/api/main.py` (lines 29-46). -/
structure MonitoredVehicleJourney where
  line_ref : String
  direction_ref : String
  published_line_name : String
  operator_ref : String
  origin_ref : String
  origin_name : String
  destination_ref : String
  destination_name : Option String
  origin_aimed_departure_time : Option PyDatetime
  destination_aimed_arrival_time : Option PyDatetime
  vehicle_location : VehicleLocation
  bearing : PyFloat
  velocity : Option PyFloat
  occupancy : Option String
  block_ref : String
  vehicle_journey_ref : String
  vehicle_ref : String
deriving DecidableEq, Repr

/-- Embeds `VehicleActivity` of `src/api/main.py` (lines 48-52). -/
structure VehicleActivity where
  recorded_at_time : PyDatetime
  valid_until_time : PyDatetime
  item_identifier : Option String
  monitored_vehicle_journey : MonitoredVehicleJourney
deriving DecidableEq, Repr

/-- Embeds `VehicleMonitoringDelivery` of `src/api/main.py` (lines 54-57). -/
structure VehicleMonitoringDelivery where
  response_timestamp : PyDatetime
  producer_ref : String
  vehicle_activities : List VehicleActivity
deriving DecidableEq, Repr

/-- Embeds `ServiceDelivery` of `src/api/main.py` (lines 59-62). -/
structure ServiceDelivery where
  response_timestamp : PyDatetime
  producer_ref : String
  vehicle_monitoring_delivery : VehicleMonitoringDelivery
deriving DecidableEq, Repr

/-- The element list one `VehicleActivity` contributes in `create_siri_xml`
(`src/api/main.py` lines 81-132).  Datetimes are serialized with
`isoformat()`; `ItemIdentifier`, `DestinationName`, `Velocity` and
`Occupancy` sit behind Python truthiness tests (so a velocity of `0.0` is
skipped); the aimed times behind `if ...:` tests on datetimes, which are
always truthy, i.e. `None` tests. -/
def mvjElem (j : MonitoredVehicleJourney) : XNode :=
  XNode.elem "MonitoredVehicleJourney" []
    ([leafEl "LineRef" j.line_ref,
      leafEl "DirectionRef" j.direction_ref,
      leafEl "PublishedLineName" j.published_line_name,
      leafEl "OperatorRef" j.operator_ref,
      leafEl "OriginRef" j.origin_ref,
      leafEl "OriginName" j.origin_name,
      leafEl "DestinationRef" j.destination_ref]
     ++ strOptLeaf "DestinationName" j.destination_name
     ++ dtOptLeaf PyDatetime.isoformat "OriginAimedDepartureTime"
          j.origin_aimed_departure_time
     ++ dtOptLeaf PyDatetime.isoformat "DestinationAimedArrivalTime"
          j.destination_aimed_arrival_time
     ++ [XNode.elem "VehicleLocation" []
          [leafEl "Longitude" j.vehicle_location.longitude.pyStr,
           leafEl "Latitude" j.vehicle_location.latitude.pyStr],
         leafEl "Bearing" j.bearing.pyStr]
     ++ floatOptLeafTruthy "Velocity" j.velocity
     ++ strOptLeaf "Occupancy" j.occupancy
     ++ [leafEl "BlockRef" j.block_ref,
         leafEl "VehicleJourneyRef" j.vehicle_journey_ref,
         leafEl "VehicleRef" j.vehicle_ref])

/-- Embeds the per-activity elements of `create_siri_xml`. -/
def activityElem (activity : VehicleActivity) : XNode :=
  XNode.elem "VehicleActivity" []
    ([leafEl "RecordedAtTime" activity.recorded_at_time.isoformat,
      leafEl "ValidUntilTime" activity.valid_until_time.isoformat]
     ++ strOptLeaf "ItemIdentifier" activity.item_identifier
     ++ [mvjElem activity.monitored_vehicle_journey])

/-- Embeds `create_siri_xml` of `src/api/main.py` (lines 65-137).  Its
`VehicleMonitoringDelivery` element carries only a `ResponseTimestamp`
before the activities (the model's `producer_ref` is not serialized
there). -/
def create_siri_xml (service_delivery : ServiceDelivery) : XNode :=
  XNode.elem "Siri"
    [("version", "2.0"), ("xmlns", "http://www.siri.org.uk/siri"),
     ("xmlns:xsi", "http://www.w3.org/2001/XMLSchema-instance"),
     ("xsi:schemaLocation",
      "http://www.siri.org.uk/siri http://www.siri.org.uk/schema/2.0/xsd/siri.xsd")]
    [XNode.elem "ServiceDelivery" []
      [leafEl "ResponseTimestamp" service_delivery.response_timestamp.isoformat,
       leafEl "ProducerRef" service_delivery.producer_ref,
       XNode.elem "VehicleMonitoringDelivery" []
         (leafEl "ResponseTimestamp"
            service_delivery.vehicle_monitoring_delivery.response_timestamp.isoformat
          :: service_delivery.vehicle_monitoring_delivery.vehicle_activities.map activityElem)]]

/-- One row of the `vehicle_positions` table (the columns written by
`store_vehicle_position`, `src/api/main.py` lines 397-404). -/
structure DbRow where
  vehicle_ref : String
  line_ref : String
  direction_ref : String
  published_line_name : String
  operator_ref : String
  origin_ref : String
  origin_name : String
  destination_ref : String
  destination_name : Option String
  longitude : PyFloat
  latitude : PyFloat
  bearing : PyFloat
  velocity : Option PyFloat
  occupancy : Option String
  block_ref : String
  vehicle_journey_ref : String
  recorded_at_time : PyDatetime
  valid_until_time : PyDatetime
deriving DecidableEq, Repr

/-- Most-recent-first comparison used to model the SQL
`ORDER BY recorded_at_time DESC`. -/
def recentFirst (a b : DbRow) : Prop :=
  b.recorded_at_time.lexVal ≤ a.recorded_at_time.lexVal

instance : DecidableRel recentFirst := fun a b =>
  Nat.decLe b.recorded_at_time.lexVal a.recorded_at_time.lexVal

instance : IsTotal DbRow recentFirst :=
  ⟨fun a b => Nat.le_total b.recorded_at_time.lexVal a.recorded_at_time.lexVal⟩

instance : IsTrans DbRow recentFirst :=
  ⟨fun _ _ _ h1 h2 => Nat.le_trans h2 h1⟩

/-- Embeds `get_vehicle_data` of `src/api/main.py` (lines 372-389): on
success the query returns every row with
`recorded_at_time > NOW() - INTERVAL '5 minutes'` ordered by
`recorded_at_time` descending; on any store failure the handler returns
`[]`.  The SQL clock bound `NOW() - INTERVAL '5 minutes'` is the
parameter `cutoff`; the store outcome is the parameter `db`. -/
def get_vehicle_data (cutoff : PyDatetime) (db : Except String (List DbRow)) :
    List DbRow :=
  match db with
  | .error _ => []
  | .ok rows =>
    List.insertionSort recentFirst
      (rows.filter (fun r => cutoff.lexVal < r.recorded_at_time.lexVal))

/-- Conversion of one fetched row into a `VehicleActivity`
(`src/api/main.py` lines 160-186): `item_identifier` and the aimed times
come from `dict.get` on columns the table does not have, hence `None`. -/
def rowToActivity (vehicle : DbRow) : VehicleActivity :=
  { recorded_at_time := vehicle.recorded_at_time
    valid_until_time := vehicle.valid_until_time
    item_identifier := none
    monitored_vehicle_journey :=
      { line_ref := vehicle.line_ref
        direction_ref := vehicle.direction_ref
        published_line_name := vehicle.published_line_name
        operator_ref := vehicle.operator_ref
        origin_ref := vehicle.origin_ref
        origin_name := vehicle.origin_name
        destination_ref := vehicle.destination_ref
        destination_name := vehicle.destination_name
        origin_aimed_departure_time := none
        destination_aimed_arrival_time := none
        vehicle_location := ⟨vehicle.longitude, vehicle.latitude⟩
        bearing := vehicle.bearing
        velocity := vehicle.velocity
        occupancy := vehicle.occupancy
        block_ref := vehicle.block_ref
        vehicle_journey_ref := vehicle.vehicle_journey_ref
        vehicle_ref := vehicle.vehicle_ref } }

/-- Embeds `get_vehicle_monitoring` of `src/api/main.py` (lines 139-203):
fetch the snapshot, build an empty delivery when it is empty and a
populated one otherwise, serialize, and answer HTTP 200 with the XML.
The two `datetime.now(timezone.utc)` reads are `nowSD` and `nowVMD`. -/
def get_vehicle_monitoring (nowSD nowVMD : PyDatetime) (cutoff : PyDatetime)
    (db : Except String (List DbRow)) : Nat × XNode :=
  let vehicles := get_vehicle_data cutoff db
  let service_delivery : ServiceDelivery :=
    if vehicles.isEmpty then
      ⟨nowSD, "TICKETER_TRACKER", ⟨nowVMD, "TICKETER_TRACKER", []⟩⟩
    else
      ⟨nowSD, "TICKETER_TRACKER", ⟨nowVMD, "TICKETER_TRACKER", vehicles.map rowToActivity⟩⟩
  (200, create_siri_xml service_delivery)

end Api

/-- Consume one expected character. -/
def chompChar (c : Char) : List Char → Option (List Char)
  | d :: cs => if d = c then some cs else none
  | [] => none

/-- Read exactly `w` decimal digit characters into a number
(accumulator-passing). -/
def takeNumAux : Nat → Nat → List Char → Option (Nat × List Char)
  | acc, 0, cs => some (acc, cs)
  | _, _ + 1, [] => none
  | acc, w + 1, c :: cs =>
    if c.isDigit then takeNumAux (acc * 10 + charVal c) w cs else none

/-- Read exactly `w` decimal digit characters into a number. -/
def takeNum (w : Nat) (cs : List Char) : Option (Nat × List Char) :=
  takeNumAux 0 w cs

/-- Read a `w`-digit number followed by a separator character. -/
def fieldNum (w : Nat) (sep : Char) (cs : List Char) : Option (Nat × List Char) :=
  (takeNum w cs).bind fun p => (chompChar sep p.2).map fun r => (p.1, r)

/-- Parser for the SIRI datetime serialization
`YYYY-MM-DDTHH:MM:SS.mmmZ` (naive UTC, millisecond precision): seven
digit fields separated by `-`, `-`, `T`, `:`, `:`, `.` and closed by `Z`. -/
def parseSiriDatetimeChars (cs : List Char) : Option PyDatetime :=
  (fieldNum 4 '-' cs).bind fun p1 =>
  (fieldNum 2 '-' p1.2).bind fun p2 =>
  (fieldNum 2 'T' p2.2).bind fun p3 =>
  (fieldNum 2 ':' p3.2).bind fun p4 =>
  (fieldNum 2 ':' p4.2).bind fun p5 =>
  (fieldNum 2 '.' p5.2).bind fun p6 =>
  (fieldNum 3 'Z' p6.2).bind fun p7 =>
  if p7.2.isEmpty then
    some ⟨p1.1, p2.1, p3.1, p4.1, p5.1, p6.1, p7.1 * 1000, false⟩
  else none

/-- Parser for the SIRI datetime serialization, on strings. -/
def parseSiriDatetime (s : String) : Option PyDatetime :=
  parseSiriDatetimeChars s.data

/-- A string has the exact shape `YYYY-MM-DDTHH:MM:SS.mmmZ`: UTC with
millisecond precision and a literal trailing Z. -/
def isSiriDatetime (s : String) : Bool :=
  (parseSiriDatetime s).isSome

/-- Decimal value of a digit string (leading-zero tolerant fold). -/
def readNat (cs : List Char) : Nat :=
  cs.foldl (fun a c => a * 10 + charVal c) 0

/-- Parser for the decimal text `str()` prints for a float: optional
sign, integer digits, point, fractional digits. -/
def parsePyFloatChars (cs : List Char) : Option PyFloat :=
  let neg := decide (cs.head? = some '-')
  let cs2 := if neg then cs.tail else cs
  let ip := cs2.takeWhile (fun c => c ≠ '.')
  let rest := cs2.dropWhile (fun c => c ≠ '.')
  match rest with
  | '.' :: fr =>
    if !ip.isEmpty && ip.all Char.isDigit && fr.all Char.isDigit then
      some ⟨neg, readNat ip, fr.map charVal⟩
    else none
  | _ => none

/-- Parser for the decimal float serialization, on strings. -/
def parsePyFloat (s : String) : Option PyFloat :=
  parsePyFloatChars s.data

/-- A datetime survives the encoder's serialization exactly: components in
the rendered ranges, naive (the bods encoder stamps no offset), and
microseconds aligned to the millisecond the format keeps. -/
def PyDatetime.msExactB (d : PyDatetime) : Bool :=
  decide d.wf && !d.aware && d.microsecond % 1000 == 0

def parseOptionalDT : Option String → Option (Option PyDatetime)
  | some s => (parseSiriDatetime s).map some
  | none => some none

def parseOptionalFloat : Option String → Option (Option PyFloat)
  | some s => (parsePyFloat s).map some
  | none => some none

namespace BodsApi

/-- Modelled from the spec: the repository ships no XML decoder (only the
encoders and the alias-carrying pydantic document models of
`src/bods-api/app/models.py`), so §8's `decode` is modelled here, reading
one `MonitoredVehicleJourney` back per those field aliases.  This stage
reads the journey's required and optional name/reference texts. -/
structure MvjCore where
  line : String
  direction : String
  pub : String
  op : String
  orig : String
  origName : String
  dest : String
  destName : Option String
deriving Repr

/-- Modelled from the spec: decode stage for the journey's name and
reference elements (required texts must be present; `DestinationName` is
read when present). -/
def decodeMvjCore (mvj : XNode) : Option MvjCore := do
  let line ← mvj.childText "LineRef"
  let direction ← mvj.childText "DirectionRef"
  let pub ← mvj.childText "PublishedLineName"
  let op ← mvj.childText "OperatorRef"
  let orig ← mvj.childText "OriginRef"
  let origName ← mvj.childText "OriginName"
  let dest ← mvj.childText "DestinationRef"
  some ⟨line, direction, pub, op, orig, origName, dest, mvj.childText "DestinationName"⟩

/-- Decoded numeric part of a journey: location, bearing, optional
velocity and occupancy. -/
structure MvjNums where
  lon : PyFloat
  lat : PyFloat
  bearing : PyFloat
  vel : Option PyFloat
  occ : Option String
deriving Repr

/-- Modelled from the spec: decode stage for `VehicleLocation`, `Bearing`
and the optional `Velocity`/`Occupancy` (numeric texts are parsed back
from their decimal serializations). -/
def decodeMvjNums (mvj : XNode) : Option MvjNums := do
  let loc ← mvj.findChild "VehicleLocation"
  let lons ← loc.childText "Longitude"
  let lon ← parsePyFloat lons
  let lats ← loc.childText "Latitude"
  let lat ← parsePyFloat lats
  let bs ← mvj.childText "Bearing"
  let bearing ← parsePyFloat bs
  let vel ← parseOptionalFloat (mvj.childText "Velocity")
  some ⟨lon, lat, bearing, vel, mvj.childText "Occupancy"⟩

/-- Decoded operational part of a journey: aimed times, block, journey
and vehicle references. -/
structure MvjOps where
  oadt : Option PyDatetime
  daat : Option PyDatetime
  blk : String
  vjr : String
  vref : String
deriving Repr

/-- Modelled from the spec: decode stage for the optional aimed times and
the block/journey/vehicle references. -/
def decodeMvjOps (mvj : XNode) : Option MvjOps := do
  let oadt ← parseOptionalDT (mvj.childText "OriginAimedDepartureTime")
  let daat ← parseOptionalDT (mvj.childText "DestinationAimedArrivalTime")
  let blk ← mvj.childText "BlockRef"
  let vjr ← mvj.childText "VehicleJourneyRef"
  let vref ← mvj.childText "VehicleRef"
  some ⟨oadt, daat, blk, vjr, vref⟩

/-- Modelled from the spec: §8's `decode` on one `VehicleActivity`
element — read the two timestamps and the embedded journey back into a
`VehicleData`. -/
def decodeVehicleActivity (a : XNode) : Option VehicleData := do
  let rs ← a.childText "RecordedAtTime"
  let recorded ← parseSiriDatetime rs
  let vs ← a.childText "ValidUntilTime"
  let valid ← parseSiriDatetime vs
  let mvj ← a.findChild "MonitoredVehicleJourney"
  let core ← decodeMvjCore mvj
  let nums ← decodeMvjNums mvj
  let ops ← decodeMvjOps mvj
  some ⟨ops.vref, core.line, core.direction, core.pub, core.op, core.orig,
    core.origName, core.dest, core.destName, ops.oadt, ops.daat, nums.lat,
    nums.lon, nums.bearing, nums.vel, nums.occ, ops.blk, ops.vjr, recorded, valid⟩

/-- Modelled from the spec: §8's `decode` on a whole SIRI-VM document —
walk to the `VehicleMonitoringDelivery` and decode each
`VehicleActivity` in order. -/
def decode (x : XNode) : Option (List VehicleData) := do
  let vmd ← x.descend ["ServiceDelivery", "VehicleMonitoringDelivery"]
  (vmd.children.filter (XNode.named "VehicleActivity")).mapM decodeVehicleActivity

/-- The vehicle states whose every present field survives the encoder's
serialization exactly: millisecond-aligned naive datetimes, digit-valued
decimals, and no set-but-empty optional strings (the truthiness guards
drop those). -/
def VehicleData.roundtrippable (v : VehicleData) : Bool :=
  v.recorded_at_time.msExactB && v.valid_until_time.msExactB &&
  (match v.origin_aimed_departure_time with
   | some t => t.msExactB
   | none => true) &&
  (match v.destination_aimed_arrival_time with
   | some t => t.msExactB
   | none => true) &&
  decide v.latitude.wf && decide v.longitude.wf && decide v.bearing.wf &&
  (match v.velocity with
   | some f => decide f.wf
   | none => true) &&
  v.destination_name != some "" && v.occupancy != some ""

end BodsApi

theorem charVal_digitChar (m : Nat) : charVal (digitChar m) = m % 10 := by
  unfold digitChar charVal
  have h : m % 10 < 10 := Nat.mod_lt m (by omega)
  generalize m % 10 = k at h ⊢
  interval_cases k <;> decide

theorem digitChar_isDigit (m : Nat) : (digitChar m).isDigit = true := by
  unfold digitChar
  have h : m % 10 < 10 := Nat.mod_lt m (by omega)
  generalize m % 10 = k at h ⊢
  interval_cases k <;> decide

theorem ne_of_isDigit {c d : Char} (hc : c.isDigit = true) (hd : d.isDigit = false) :
    c ≠ d := by
  intro h
  rw [h, hd] at hc
  exact Bool.noConfusion hc

theorem digitChar_ne (m : Nat) {c : Char} (hc : c.isDigit = false) : digitChar m ≠ c :=
  ne_of_isDigit (digitChar_isDigit m) hc

theorem takeNumAux_padNum (w : Nat) : ∀ (acc n : Nat) (rest : List Char),
    takeNumAux acc w (padNum w n ++ rest) = some (acc * 10 ^ w + n % 10 ^ w, rest) := by
  induction w with
  | zero =>
    intro acc n rest
    simp [padNum, takeNumAux, Nat.mod_one]
  | succ w ih =>
    intro acc n rest
    rw [padNum, List.cons_append]
    simp only [takeNumAux, digitChar_isDigit, if_true, charVal_digitChar]
    rw [ih]
    congr 2
    rw [pow_succ, Nat.mod_mul]
    ring

theorem takeNum_padNum (w n : Nat) (rest : List Char) :
    takeNum w (padNum w n ++ rest) = some (n % 10 ^ w, rest) := by
  unfold takeNum
  rw [takeNumAux_padNum]
  simp

theorem chompChar_cons (c : Char) (cs : List Char) :
    chompChar c (c :: cs) = some cs := by
  simp [chompChar]

theorem fieldNum_pad (w : Nat) (sep : Char) (n : Nat) (rest : List Char) :
    fieldNum w sep (padNum w n ++ sep :: rest) = some (n % 10 ^ w, rest) := by
  unfold fieldNum
  rw [takeNum_padNum]
  simp [chompChar_cons]

/-- What the millisecond-Z parser recovers from `format_datetime`:
components folded into the rendered ranges, milliseconds only, naive. -/
theorem parseSiriDatetime_format (dt : PyDatetime) :
    parseSiriDatetime (BodsApi.format_datetime dt) =
      some ⟨dt.year % 10 ^ 4, dt.month % 10 ^ 2, dt.day % 10 ^ 2, dt.hour % 10 ^ 2,
        dt.minute % 10 ^ 2, dt.second % 10 ^ 2,
        dt.microsecond / 1000 % 10 ^ 3 * 1000, false⟩ := by
  unfold parseSiriDatetime BodsApi.format_datetime parseSiriDatetimeChars
  simp only [fieldNum_pad, Option.some_bind', List.isEmpty_nil, if_true]

theorem isSiriDatetime_format (dt : PyDatetime) :
    isSiriDatetime (BodsApi.format_datetime dt) = true := by
  unfold isSiriDatetime
  rw [parseSiriDatetime_format]
  rfl

/-- On millisecond-exact naive datetimes the parser inverts
`format_datetime`. -/
theorem parseSiriDatetime_format_of_msExact (dt : PyDatetime)
    (h : dt.msExactB = true) :
    parseSiriDatetime (BodsApi.format_datetime dt) = some dt := by
  rw [parseSiriDatetime_format]
  unfold PyDatetime.msExactB PyDatetime.wf at h
  simp only [Bool.and_eq_true, decide_eq_true_eq, Bool.not_eq_true', beq_iff_eq] at h
  obtain ⟨⟨⟨hy, hmo, hd, hh, hmi, hs, hus⟩, haware⟩, hms⟩ := h
  cases dt with
  | mk y mo d h mi s us aw =>
    simp only at hy hmo hd hh hmi hs hus haware hms
    subst haware
    simp only [PyDatetime.mk.injEq]
    norm_num
    omega

theorem natCharsAux_ne_nil (fuel n : Nat) : natCharsAux fuel n ≠ [] := by
  cases fuel with
  | zero => simp [natCharsAux]
  | succ k =>
    rw [natCharsAux]
    split <;> simp

theorem natChars_ne_nil (n : Nat) : natChars n ≠ [] := natCharsAux_ne_nil n n

theorem natCharsAux_all_digit (fuel : Nat) :
    ∀ n, ∀ c ∈ natCharsAux fuel n, c.isDigit = true := by
  induction fuel with
  | zero =>
    intro n c hc
    simp only [natCharsAux, List.mem_singleton] at hc
    subst hc
    exact digitChar_isDigit n
  | succ k ih =>
    intro n c hc
    rw [natCharsAux] at hc
    split at hc
    · simp only [List.mem_singleton] at hc
      subst hc
      exact digitChar_isDigit n
    · rw [List.mem_append] at hc
      rcases hc with h | h
      · exact ih (n / 10) c h
      · simp only [List.mem_singleton] at h
        subst h
        exact digitChar_isDigit n

theorem natChars_all_digit (n : Nat) : ∀ c ∈ natChars n, c.isDigit = true :=
  natCharsAux_all_digit n n

theorem readNat_append_digit (xs : List Char) (c : Char) :
    readNat (xs ++ [c]) = readNat xs * 10 + charVal c := by
  unfold readNat
  rw [List.foldl_append]
  rfl

theorem readNat_natCharsAux (fuel : Nat) :
    ∀ n, n ≤ fuel → readNat (natCharsAux fuel n) = n := by
  induction fuel with
  | zero =>
    intro n hn
    have h0 : n = 0 := by omega
    subst h0
    rfl
  | succ k ih =>
    intro n hn
    rw [natCharsAux]
    split
    · next h =>
      unfold readNat
      simp only [List.foldl_cons, List.foldl_nil]
      rw [charVal_digitChar]
      omega
    · next h =>
      rw [readNat_append_digit, ih (n / 10) (by omega), charVal_digitChar]
      omega

theorem readNat_natChars (n : Nat) : readNat (natChars n) = n :=
  readNat_natCharsAux n n (Nat.le_refl n)

theorem takeWhile_dropWhile_append (p : Char → Bool) (xs ys : List Char) (y : Char)
    (hx : ∀ x ∈ xs, p x = true) (hy : p y = false) :
    (xs ++ y :: ys).takeWhile p = xs ∧ (xs ++ y :: ys).dropWhile p = y :: ys := by
  induction xs with
  | nil =>
    simp [List.takeWhile_cons, List.dropWhile_cons, hy]
  | cons a xs ih =>
    have ha : p a = true := hx a (by simp)
    obtain ⟨h1, h2⟩ := ih (fun x hx2 => hx x (by simp [hx2]))
    simp [List.takeWhile_cons, List.dropWhile_cons, ha, h1, h2]

theorem data_mk (l : List Char) : (String.mk l).data = l := rfl

theorem parsePyFloat_pyStr (f : PyFloat) (h : f.wf) : parsePyFloat f.pyStr = some f := by
  obtain ⟨neg, ip, fr⟩ := f
  have hfr : ∀ d ∈ fr, d < 10 := h
  obtain ⟨c, t, hct⟩ : ∃ c t, natChars ip = c :: t := by
    cases hnc : natChars ip with
    | nil => exact absurd hnc (natChars_ne_nil ip)
    | cons c t => exact ⟨c, t, rfl⟩
  have hcdig : c.isDigit = true :=
    natChars_all_digit ip c (by rw [hct]; exact List.mem_cons_self c t)
  have hcne : c ≠ '-' := ne_of_isDigit hcdig (by decide)
  have htw := takeWhile_dropWhile_append (fun ch => decide (ch ≠ '.'))
    (natChars ip) (fr.map digitChar) '.'
    (fun x hx => decide_eq_true (ne_of_isDigit (natChars_all_digit ip x hx) (by decide)))
    (by decide)
  have hie : (natChars ip).isEmpty = false := by rw [hct]; rfl
  have hall1 : (natChars ip).all Char.isDigit = true := by
    rw [List.all_eq_true]
    intro x hx
    simp [natChars_all_digit ip x hx]
  have hall2 : (fr.map digitChar).all Char.isDigit = true := by
    rw [List.all_eq_true]
    intro x hx
    rw [List.mem_map] at hx
    obtain ⟨d, _, rfl⟩ := hx
    simp [digitChar_isDigit d]
  have hmap2 : (fr.map digitChar).map charVal = fr := by
    rw [List.map_map]
    have hc2 : ∀ d ∈ fr, (charVal ∘ digitChar) d = d := fun d hd => by
      simp [Function.comp, charVal_digitChar, Nat.mod_eq_of_lt (hfr d hd)]
    exact (List.map_congr_left hc2).trans (List.map_id fr)
  cases neg
  case false =>
    have hhead : (natChars ip ++ '.' :: fr.map digitChar).head? = some c := by
      rw [hct]; rfl
    have hdec : decide ((natChars ip ++ '.' :: fr.map digitChar).head? = some '-') = false := by
      rw [hhead]
      exact decide_eq_false (by simpa using hcne)
    unfold parsePyFloat PyFloat.pyStr parsePyFloatChars
    simp only [data_mk, Bool.false_eq_true, if_false, List.nil_append, hdec, htw.1, htw.2,
      hie, hall1, hall2, Bool.not_false, Bool.and_self, Bool.true_and, Bool.and_true,
      if_true, readNat_natChars, hmap2]
  case true =>
    have hdec : decide ((['-'] ++ (natChars ip ++ '.' :: fr.map digitChar)).head? = some '-') = true := by
      rw [List.singleton_append, List.head?_cons]
      simp
    unfold parsePyFloat PyFloat.pyStr parsePyFloatChars
    simp only [data_mk, if_true, List.singleton_append, List.head?_cons, List.tail_cons,
      decide_eq_true_eq, Option.some.injEq, htw.1, htw.2,
      hie, hall1, hall2, Bool.not_false, Bool.and_self, Bool.true_and, Bool.and_true,
      readNat_natChars, hmap2]
    simp [htw.1, htw.2, hie, hall1, hall2, readNat_natChars, hmap2]

@[simp] theorem named_elem (n m : String) (a : List (String × String)) (c : List XNode) :
    XNode.named n (XNode.elem m a c) = (m == n) := rfl

@[simp] theorem named_leafEl (n m t : String) : XNode.named n (leafEl m t) = (m == n) := rfl

@[simp] theorem innerText_leafEl (m t : String) : (leafEl m t).innerText = some t := rfl

@[simp] theorem filter_strOptLeaf_ne {tag tag2 : String} (o : Option String)
    (h : (tag == tag2) = false) :
    (strOptLeaf tag o).filter (XNode.named tag2) = [] := by
  unfold strOptLeaf
  cases o with
  | none => rfl
  | some s =>
    split
    · simp [h]
    · rfl

@[simp] theorem filter_strOptLeaf_self (tag : String) (o : Option String) :
    (strOptLeaf tag o).filter (XNode.named tag) = strOptLeaf tag o := by
  unfold strOptLeaf
  cases o with
  | none => rfl
  | some s =>
    split
    · simp
    · rfl

@[simp] theorem filter_dtOptLeaf_ne (ser : PyDatetime → String) {tag tag2 : String}
    (o : Option PyDatetime) (h : (tag == tag2) = false) :
    (dtOptLeaf ser tag o).filter (XNode.named tag2) = [] := by
  unfold dtOptLeaf
  cases o with
  | none => rfl
  | some t => simp [h]

@[simp] theorem filter_dtOptLeaf_self (ser : PyDatetime → String) (tag : String)
    (o : Option PyDatetime) :
    (dtOptLeaf ser tag o).filter (XNode.named tag) = dtOptLeaf ser tag o := by
  unfold dtOptLeaf
  cases o with
  | none => rfl
  | some t => simp

@[simp] theorem filter_floatOptLeaf_ne {tag tag2 : String} (o : Option PyFloat)
    (h : (tag == tag2) = false) :
    (floatOptLeaf tag o).filter (XNode.named tag2) = [] := by
  unfold floatOptLeaf
  cases o with
  | none => rfl
  | some v => simp [h]

@[simp] theorem filter_floatOptLeaf_self (tag : String) (o : Option PyFloat) :
    (floatOptLeaf tag o).filter (XNode.named tag) = floatOptLeaf tag o := by
  unfold floatOptLeaf
  cases o with
  | none => rfl
  | some v => simp

@[simp] theorem filter_floatOptLeafTruthy_ne {tag tag2 : String} (o : Option PyFloat)
    (h : (tag == tag2) = false) :
    (floatOptLeafTruthy tag o).filter (XNode.named tag2) = [] := by
  unfold floatOptLeafTruthy
  cases o with
  | none => rfl
  | some v =>
    split
    · simp [h]
    · rfl

@[simp] theorem filter_floatOptLeafTruthy_self (tag : String) (o : Option PyFloat) :
    (floatOptLeafTruthy tag o).filter (XNode.named tag) = floatOptLeafTruthy tag o := by
  unfold floatOptLeafTruthy
  cases o with
  | none => rfl
  | some v =>
    split
    · simp
    · rfl

namespace BodsApi

@[simp] theorem named_mvjElem (n : String) (v : VehicleData) :
    XNode.named n (mvjElem v) = ("MonitoredVehicleJourney" == n) := by
  unfold mvjElem
  rfl

@[simp] theorem named_create_vehicle_activity_xml (n : String) (v : VehicleData)
    (item_id : String) :
    XNode.named n (create_vehicle_activity_xml v item_id) = ("VehicleActivity" == n) := by
  unfold create_vehicle_activity_xml
  rfl

theorem mvj_childText_LineRef (v : VehicleData) :
    (mvjElem v).childText "LineRef" = some v.line_ref := by
  simp [mvjElem, XNode.childText, XNode.findChild, XNode.children,
    List.filter_append, List.filter_cons, XNode.innerText, leafEl]

theorem mvj_childText_DirectionRef (v : VehicleData) :
    (mvjElem v).childText "DirectionRef" = some v.direction_ref := by
  simp [mvjElem, XNode.childText, XNode.findChild, XNode.children,
    List.filter_append, List.filter_cons, XNode.innerText, leafEl]

theorem mvj_childText_PublishedLineName (v : VehicleData) :
    (mvjElem v).childText "PublishedLineName" = some v.published_line_name := by
  simp [mvjElem, XNode.childText, XNode.findChild, XNode.children,
    List.filter_append, List.filter_cons, XNode.innerText, leafEl]

theorem mvj_childText_OperatorRef (v : VehicleData) :
    (mvjElem v).childText "OperatorRef" = some v.operator_ref := by
  simp [mvjElem, XNode.childText, XNode.findChild, XNode.children,
    List.filter_append, List.filter_cons, XNode.innerText, leafEl]

theorem mvj_childText_OriginRef (v : VehicleData) :
    (mvjElem v).childText "OriginRef" = some v.origin_ref := by
  simp [mvjElem, XNode.childText, XNode.findChild, XNode.children,
    List.filter_append, List.filter_cons, XNode.innerText, leafEl]

theorem mvj_childText_OriginName (v : VehicleData) :
    (mvjElem v).childText "OriginName" = some v.origin_name := by
  simp [mvjElem, XNode.childText, XNode.findChild, XNode.children,
    List.filter_append, List.filter_cons, XNode.innerText, leafEl]

theorem mvj_childText_DestinationRef (v : VehicleData) :
    (mvjElem v).childText "DestinationRef" = some v.destination_ref := by
  simp [mvjElem, XNode.childText, XNode.findChild, XNode.children,
    List.filter_append, List.filter_cons, XNode.innerText, leafEl]

theorem mvj_childText_Bearing (v : VehicleData) :
    (mvjElem v).childText "Bearing" = some v.bearing.pyStr := by
  simp [mvjElem, XNode.childText, XNode.findChild, XNode.children,
    List.filter_append, List.filter_cons, XNode.innerText, leafEl]

theorem mvj_childText_BlockRef (v : VehicleData) :
    (mvjElem v).childText "BlockRef" = some v.block_ref := by
  simp [mvjElem, XNode.childText, XNode.findChild, XNode.children,
    List.filter_append, List.filter_cons, XNode.innerText, leafEl]

theorem mvj_childText_VehicleJourneyRef (v : VehicleData) :
    (mvjElem v).childText "VehicleJourneyRef" = some v.vehicle_journey_ref := by
  simp [mvjElem, XNode.childText, XNode.findChild, XNode.children,
    List.filter_append, List.filter_cons, XNode.innerText, leafEl]

theorem mvj_childText_VehicleRef (v : VehicleData) :
    (mvjElem v).childText "VehicleRef" = some v.vehicle_ref := by
  simp [mvjElem, XNode.childText, XNode.findChild, XNode.children,
    List.filter_append, List.filter_cons, XNode.innerText, leafEl]

theorem mvj_findChild_VehicleLocation (v : VehicleData) :
    (mvjElem v).findChild "VehicleLocation" =
      some (XNode.elem "VehicleLocation" []
        [leafEl "Longitude" v.longitude.pyStr, leafEl "Latitude" v.latitude.pyStr]) := by
  simp [mvjElem, XNode.findChild, XNode.children, List.filter_append, List.filter_cons]

theorem mvj_childText_Velocity (v : VehicleData) :
    (mvjElem v).childText "Velocity" = v.velocity.map PyFloat.pyStr := by
  simp [mvjElem, XNode.childText, XNode.findChild, XNode.children,
    List.filter_append, List.filter_cons]
  cases v.velocity <;> simp [floatOptLeaf, leafEl, XNode.innerText]

theorem mvj_hasChild_Velocity (v : VehicleData) :
    (mvjElem v).hasChild "Velocity" = v.velocity.isSome := by
  simp [mvjElem, XNode.hasChild, XNode.children, List.filter_append, List.filter_cons]
  cases v.velocity <;> simp [floatOptLeaf]

theorem mvj_childText_DestinationName (v : VehicleData) :
    (mvjElem v).childText "DestinationName" =
      v.destination_name.bind (fun s => if s.isEmpty then none else some s) := by
  simp [mvjElem, XNode.childText, XNode.findChild, XNode.children,
    List.filter_append, List.filter_cons]
  cases v.destination_name with
  | none => simp [strOptLeaf]
  | some s => cases hs : s.isEmpty <;> simp [strOptLeaf, hs, leafEl, XNode.innerText]

theorem mvj_hasChild_DestinationName (v : VehicleData) :
    (mvjElem v).hasChild "DestinationName" = optStrTruthy v.destination_name := by
  simp [mvjElem, XNode.hasChild, XNode.children, List.filter_append, List.filter_cons]
  cases v.destination_name with
  | none => simp [strOptLeaf, optStrTruthy]
  | some s => cases hs : s.isEmpty <;> simp [strOptLeaf, hs, optStrTruthy]

theorem mvj_childText_Occupancy (v : VehicleData) :
    (mvjElem v).childText "Occupancy" =
      v.occupancy.bind (fun s => if s.isEmpty then none else some s) := by
  simp [mvjElem, XNode.childText, XNode.findChild, XNode.children,
    List.filter_append, List.filter_cons]
  cases v.occupancy with
  | none => simp [strOptLeaf]
  | some s => cases hs : s.isEmpty <;> simp [strOptLeaf, hs, leafEl, XNode.innerText]

theorem mvj_hasChild_Occupancy (v : VehicleData) :
    (mvjElem v).hasChild "Occupancy" = optStrTruthy v.occupancy := by
  simp [mvjElem, XNode.hasChild, XNode.children, List.filter_append, List.filter_cons]
  cases v.occupancy with
  | none => simp [strOptLeaf, optStrTruthy]
  | some s => cases hs : s.isEmpty <;> simp [strOptLeaf, hs, optStrTruthy]

theorem mvj_childText_OriginAimedDepartureTime (v : VehicleData) :
    (mvjElem v).childText "OriginAimedDepartureTime" =
      v.origin_aimed_departure_time.map format_datetime := by
  simp [mvjElem, XNode.childText, XNode.findChild, XNode.children,
    List.filter_append, List.filter_cons]
  cases v.origin_aimed_departure_time <;> simp [dtOptLeaf, leafEl, XNode.innerText]

theorem mvj_hasChild_OriginAimedDepartureTime (v : VehicleData) :
    (mvjElem v).hasChild "OriginAimedDepartureTime" =
      v.origin_aimed_departure_time.isSome := by
  simp [mvjElem, XNode.hasChild, XNode.children, List.filter_append, List.filter_cons]
  cases v.origin_aimed_departure_time <;> simp [dtOptLeaf]

theorem mvj_childText_DestinationAimedArrivalTime (v : VehicleData) :
    (mvjElem v).childText "DestinationAimedArrivalTime" =
      v.destination_aimed_arrival_time.map format_datetime := by
  simp [mvjElem, XNode.childText, XNode.findChild, XNode.children,
    List.filter_append, List.filter_cons]
  cases v.destination_aimed_arrival_time <;> simp [dtOptLeaf, leafEl, XNode.innerText]

theorem mvj_hasChild_DestinationAimedArrivalTime (v : VehicleData) :
    (mvjElem v).hasChild "DestinationAimedArrivalTime" =
      v.destination_aimed_arrival_time.isSome := by
  simp [mvjElem, XNode.hasChild, XNode.children, List.filter_append, List.filter_cons]
  cases v.destination_aimed_arrival_time <;> simp [dtOptLeaf]

theorem act_childText_RecordedAtTime (v : VehicleData) (item_id : String) :
    (create_vehicle_activity_xml v item_id).childText "RecordedAtTime" =
      some (format_datetime v.recorded_at_time) := by
  simp [create_vehicle_activity_xml, XNode.childText, XNode.findChild, XNode.children,
    List.filter_append, List.filter_cons, XNode.innerText, leafEl]

theorem act_childText_ValidUntilTime (v : VehicleData) (item_id : String) :
    (create_vehicle_activity_xml v item_id).childText "ValidUntilTime" =
      some (format_datetime v.valid_until_time) := by
  simp [create_vehicle_activity_xml, XNode.childText, XNode.findChild, XNode.children,
    List.filter_append, List.filter_cons, XNode.innerText, leafEl]

theorem act_findChild_mvj (v : VehicleData) (item_id : String) :
    (create_vehicle_activity_xml v item_id).findChild "MonitoredVehicleJourney" =
      some (mvjElem v) := by
  simp [create_vehicle_activity_xml, XNode.findChild, XNode.children,
    List.filter_append, List.filter_cons]

theorem act_hasChild_ItemIdentifier (v : VehicleData) (item_id : String) :
    (create_vehicle_activity_xml v item_id).hasChild "ItemIdentifier" =
      !item_id.isEmpty := by
  simp [create_vehicle_activity_xml, XNode.hasChild, XNode.children,
    List.filter_append, List.filter_cons]
  cases hs : item_id.isEmpty <;> simp [strOptLeaf, hs]

end BodsApi

namespace BodsApi

theorem decodeMvjCore_mvjElem (v : VehicleData) (hdest : v.destination_name ≠ some "") :
    decodeMvjCore (mvjElem v) =
      some ⟨v.line_ref, v.direction_ref, v.published_line_name, v.operator_ref,
        v.origin_ref, v.origin_name, v.destination_ref, v.destination_name⟩ := by
  unfold decodeMvjCore
  rw [mvj_childText_LineRef, mvj_childText_DirectionRef, mvj_childText_PublishedLineName,
    mvj_childText_OperatorRef, mvj_childText_OriginRef, mvj_childText_OriginName,
    mvj_childText_DestinationRef, mvj_childText_DestinationName]
  simp only [Option.bind_eq_bind, Option.some_bind, Option.some.injEq, MvjCore.mk.injEq,
    true_and]
  cases hd : v.destination_name with
  | none => simp
  | some s =>
    have hse : s.isEmpty = false := by
      cases hse2 : s.isEmpty
      · rfl
      · rw [String.isEmpty_iff] at hse2
        exact absurd (by rw [hd, hse2]) hdest
    simp [hse]

theorem decodeMvjNums_mvjElem (v : VehicleData)
    (hlat : v.latitude.wf) (hlon : v.longitude.wf) (hbear : v.bearing.wf)
    (hvel : ∀ f, v.velocity = some f → f.wf)
    (hocc : v.occupancy ≠ some "") :
    decodeMvjNums (mvjElem v) =
      some ⟨v.longitude, v.latitude, v.bearing, v.velocity, v.occupancy⟩ := by
  have hlocLon : ∀ a b : String,
      (XNode.elem "VehicleLocation" [] [leafEl "Longitude" a, leafEl "Latitude" b]).childText
        "Longitude" = some a := by
    intro a b
    simp [XNode.childText, XNode.findChild, XNode.children, List.filter_cons]
  have hlocLat : ∀ a b : String,
      (XNode.elem "VehicleLocation" [] [leafEl "Longitude" a, leafEl "Latitude" b]).childText
        "Latitude" = some b := by
    intro a b
    simp [XNode.childText, XNode.findChild, XNode.children, List.filter_cons]
  unfold decodeMvjNums
  rw [mvj_findChild_VehicleLocation, mvj_childText_Bearing, mvj_childText_Velocity,
    mvj_childText_Occupancy]
  simp only [Option.bind_eq_bind, Option.some_bind]
  rw [hlocLon]
  simp only [Option.some_bind]
  rw [parsePyFloat_pyStr v.longitude hlon]
  simp only [Option.some_bind]
  rw [hlocLat]
  simp only [Option.some_bind]
  rw [parsePyFloat_pyStr v.latitude hlat]
  simp only [Option.some_bind]
  rw [parsePyFloat_pyStr v.bearing hbear]
  simp only [Option.some_bind]
  have hv : parseOptionalFloat (v.velocity.map PyFloat.pyStr) = some v.velocity := by
    cases hvv : v.velocity with
    | none => rfl
    | some f =>
      simp only [Option.map_some', parseOptionalFloat]
      rw [parsePyFloat_pyStr f (hvel f hvv)]
      rfl
  rw [hv]
  simp only [Option.some_bind, Option.some.injEq, MvjNums.mk.injEq, true_and]
  cases ho : v.occupancy with
  | none => simp
  | some s =>
    have hse : s.isEmpty = false := by
      cases hse2 : s.isEmpty
      · rfl
      · rw [String.isEmpty_iff] at hse2
        exact absurd (by rw [ho, hse2]) hocc
    simp [hse]

theorem decodeMvjOps_mvjElem (v : VehicleData)
    (hoadt : ∀ t, v.origin_aimed_departure_time = some t → t.msExactB = true)
    (hdaat : ∀ t, v.destination_aimed_arrival_time = some t → t.msExactB = true) :
    decodeMvjOps (mvjElem v) =
      some ⟨v.origin_aimed_departure_time, v.destination_aimed_arrival_time,
        v.block_ref, v.vehicle_journey_ref, v.vehicle_ref⟩ := by
  unfold decodeMvjOps
  rw [mvj_childText_OriginAimedDepartureTime, mvj_childText_DestinationAimedArrivalTime,
    mvj_childText_BlockRef, mvj_childText_VehicleJourneyRef, mvj_childText_VehicleRef]
  have h1 : parseOptionalDT (v.origin_aimed_departure_time.map format_datetime) =
      some v.origin_aimed_departure_time := by
    cases ht : v.origin_aimed_departure_time with
    | none => rfl
    | some t =>
      simp only [Option.map_some', parseOptionalDT]
      rw [parseSiriDatetime_format_of_msExact t (hoadt t ht)]
      rfl
  have h2 : parseOptionalDT (v.destination_aimed_arrival_time.map format_datetime) =
      some v.destination_aimed_arrival_time := by
    cases ht : v.destination_aimed_arrival_time with
    | none => rfl
    | some t =>
      simp only [Option.map_some', parseOptionalDT]
      rw [parseSiriDatetime_format_of_msExact t (hdaat t ht)]
      rfl
  rw [h1, h2]
  simp only [Option.bind_eq_bind, Option.some_bind]

theorem decodeVehicleActivity_create (v : VehicleData) (item_id : String)
    (h : v.roundtrippable = true) :
    decodeVehicleActivity (create_vehicle_activity_xml v item_id) = some v := by
  unfold VehicleData.roundtrippable at h
  simp only [Bool.and_eq_true, bne_iff_ne, ne_eq, decide_eq_true_eq] at h
  obtain ⟨⟨⟨⟨⟨⟨⟨⟨⟨hrec, hval⟩, hoadt⟩, hdaat⟩, hlat⟩, hlon⟩, hbear⟩, hvel⟩, hdest⟩, hocc⟩ := h
  have hoadt2 : ∀ t, v.origin_aimed_departure_time = some t → t.msExactB = true := by
    intro t ht
    rw [ht] at hoadt
    simpa using hoadt
  have hdaat2 : ∀ t, v.destination_aimed_arrival_time = some t → t.msExactB = true := by
    intro t ht
    rw [ht] at hdaat
    simpa using hdaat
  have hvel2 : ∀ f, v.velocity = some f → f.wf := by
    intro f hf
    rw [hf] at hvel
    simpa using hvel
  unfold decodeVehicleActivity
  rw [act_childText_RecordedAtTime, act_childText_ValidUntilTime, act_findChild_mvj]
  simp only [Option.bind_eq_bind, Option.some_bind]
  rw [parseSiriDatetime_format_of_msExact v.recorded_at_time hrec]
  simp only [Option.some_bind]
  rw [parseSiriDatetime_format_of_msExact v.valid_until_time hval]
  simp only [Option.some_bind]
  rw [decodeMvjCore_mvjElem v hdest]
  simp only [Option.some_bind]
  rw [decodeMvjNums_mvjElem v hlat hlon hbear hvel2 hocc]
  simp only [Option.some_bind]
  rw [decodeMvjOps_mvjElem v hoadt2 hdaat2]
  simp only [Option.some_bind]

end BodsApi

namespace BodsApi

theorem filter_VA_enum_map (l : List (Nat × VehicleData)) (g : Nat → String) :
    (l.map (fun p => create_vehicle_activity_xml p.2 (g p.1))).filter
        (XNode.named "VehicleActivity") =
      l.map (fun p => create_vehicle_activity_xml p.2 (g p.1)) := by
  apply List.filter_eq_self.mpr
  intro a ha
  rw [List.mem_map] at ha
  obtain ⟨p, _, rfl⟩ := ha
  simp

theorem countActivities_encode (vehicles : List VehicleData) (producer_ref : String)
    (sdNow vmdNow vmdValidUntil : PyDatetime) (epochTs : Nat) :
    countActivities (create_siri_vehicle_monitoring_response vehicles producer_ref
      sdNow vmdNow vmdValidUntil epochTs) = vehicles.length := by
  unfold countActivities create_siri_vehicle_monitoring_response serviceDeliveryElem vmdElem
  simp only [XNode.descend, XNode.findChild, XNode.children, List.filter_cons,
    List.filter_nil, List.filter_append, named_elem, named_leafEl]
  simp [filter_VA_enum_map vehicles.enum
    (fun i => "MIDL_" ++ toString (i + 1) ++ "_" ++ toString epochTs)]

theorem siriStructOk_encode (vehicles : List VehicleData) (producer_ref : String)
    (sdNow vmdNow vmdValidUntil : PyDatetime) (epochTs : Nat) :
    siriStructOk (create_siri_vehicle_monitoring_response vehicles producer_ref
      sdNow vmdNow vmdValidUntil epochTs) = true := by
  unfold siriStructOk create_siri_vehicle_monitoring_response serviceDeliveryElem vmdElem
  simp [XNode.attrs, XNode.children, List.filter_cons, List.filter_append]

theorem mapM_decode_enum_map (l : List (Nat × VehicleData)) (g : Nat → String)
    (h : ∀ p ∈ l, (p.2).roundtrippable = true) :
    (l.map (fun p => create_vehicle_activity_xml p.2 (g p.1))).mapM
        decodeVehicleActivity = some (l.map Prod.snd) := by
  induction l with
  | nil => rfl
  | cons a t ih =>
    rw [List.map_cons, List.mapM_cons, List.map_cons]
    rw [decodeVehicleActivity_create a.2 (g a.1) (h a (List.mem_cons_self a t))]
    rw [ih (fun p hp => h p (List.mem_cons_of_mem a hp))]
    rfl

/-- Decoding inverts encoding on round-trippable vehicle lists. -/
theorem decode_encode (vehicles : List VehicleData) (producer_ref : String)
    (sdNow vmdNow vmdValidUntil : PyDatetime) (epochTs : Nat)
    (h : ∀ v ∈ vehicles, v.roundtrippable = true) :
    decode (create_siri_vehicle_monitoring_response vehicles producer_ref
      sdNow vmdNow vmdValidUntil epochTs) = some vehicles := by
  unfold decode create_siri_vehicle_monitoring_response serviceDeliveryElem vmdElem
  simp only [XNode.descend, XNode.findChild, XNode.children, List.filter_cons,
    List.filter_nil, List.filter_append, named_elem, named_leafEl,
    List.head?_cons, Option.bind_eq_bind, Option.some_bind,
    show ("ServiceDelivery" == "ServiceDelivery") = true from rfl,
    show ("ResponseTimestamp" == "ServiceDelivery") = false from rfl,
    show ("ProducerRef" == "ServiceDelivery") = false from rfl,
    show ("VehicleMonitoringDelivery" == "ServiceDelivery") = false from rfl,
    show ("ResponseTimestamp" == "VehicleMonitoringDelivery") = false from rfl,
    show ("ProducerRef" == "VehicleMonitoringDelivery") = false from rfl,
    show ("ValidUntilTime" == "VehicleMonitoringDelivery") = false from rfl,
    show ("VehicleMonitoringDelivery" == "VehicleMonitoringDelivery") = true from rfl,
    show ("ResponseTimestamp" == "VehicleActivity") = false from rfl,
    show ("ProducerRef" == "VehicleActivity") = false from rfl,
    show ("ValidUntilTime" == "VehicleActivity") = false from rfl,
    Bool.false_eq_true, reduceIte, List.nil_append]
  rw [filter_VA_enum_map vehicles.enum
    (fun i => "MIDL_" ++ toString (i + 1) ++ "_" ++ toString epochTs)]
  rw [mapM_decode_enum_map vehicles.enum
    (fun i => "MIDL_" ++ toString (i + 1) ++ "_" ++ toString epochTs)
    (fun p hp => by
      apply h
      have hm := List.mem_map_of_mem Prod.snd hp
      rwa [List.enum_map_snd] at hm)]
  rw [List.enum_map_snd]

end BodsApi

namespace BodsApi

/-- The predicate one truthiness-guarded criterion imposes on a vehicle. -/
def stepPred (sel : VehicleData → String) (crit : Option String) (v : VehicleData) : Bool :=
  match crit with
  | some s => if s.isEmpty then true else sel v == s
  | none => true

theorem refFilterStep_eq_filter (sel : VehicleData → String) (crit : Option String)
    (vs : List VehicleData) :
    refFilterStep sel crit vs = vs.filter (stepPred sel crit) := by
  cases crit with
  | none =>
    rw [show refFilterStep sel none vs = vs from rfl]
    exact (List.filter_eq_self.mpr (fun x _ => by simp [stepPred])).symm
  | some s =>
    rw [show refFilterStep sel (some s) vs =
      (if s.isEmpty then vs else vs.filter (fun v => sel v == s)) from rfl]
    cases hs : s.isEmpty
    · simp only [Bool.false_eq_true, if_false]
      apply List.filter_congr
      intro x _
      simp [stepPred, hs]
    · simp only [if_true]
      exact (List.filter_eq_self.mpr (fun x _ => by simp [stepPred, hs])).symm

theorem refFilters_eq (s : List VehicleData) (c : Criteria) :
    refFilters s c =
      ((s.filter (stepPred VehicleData.line_ref c.LineRef)).filter
        (stepPred VehicleData.operator_ref c.OperatorRef)).filter
        (stepPred VehicleData.vehicle_ref c.VehicleRef) := by
  unfold refFilters
  rw [refFilterStep_eq_filter, refFilterStep_eq_filter, refFilterStep_eq_filter]

theorem mem_refFilters {s : List VehicleData} {c : Criteria} {x : VehicleData}
    (hx : x ∈ refFilters s c) :
    x ∈ s ∧ stepPred VehicleData.line_ref c.LineRef x = true ∧
      stepPred VehicleData.operator_ref c.OperatorRef x = true ∧
      stepPred VehicleData.vehicle_ref c.VehicleRef x = true := by
  rw [refFilters_eq] at hx
  rw [List.mem_filter] at hx
  obtain ⟨hx, h3⟩ := hx
  rw [List.mem_filter] at hx
  obtain ⟨hx, h2⟩ := hx
  rw [List.mem_filter] at hx
  obtain ⟨h0, h1⟩ := hx
  exact ⟨h0, h1, h2, h3⟩

theorem refFilters_of_all (l : List VehicleData) (c : Criteria)
    (h : ∀ x ∈ l, stepPred VehicleData.line_ref c.LineRef x = true ∧
      stepPred VehicleData.operator_ref c.OperatorRef x = true ∧
      stepPred VehicleData.vehicle_ref c.VehicleRef x = true) :
    refFilters l c = l := by
  unfold refFilters
  rw [refFilterStep_eq_filter, refFilterStep_eq_filter, refFilterStep_eq_filter]
  rw [List.filter_eq_self.mpr (fun x hx => (h x hx).1)]
  rw [List.filter_eq_self.mpr (fun x hx => (h x hx).2.1)]
  rw [List.filter_eq_self.mpr (fun x hx => (h x hx).2.2)]

theorem applyFilters_eq (s : List VehicleData) (c : Criteria) :
    applyFilters s c =
      (match c.MaximumNumberOfVehicles with
       | some n => if n == 0 then refFilters s c else pySliceTo (refFilters s c) n
       | none => refFilters s c) := rfl

theorem mem_applyFilters {s : List VehicleData} {c : Criteria} {x : VehicleData}
    (hx : x ∈ applyFilters s c) : x ∈ refFilters s c := by
  rw [applyFilters_eq] at hx
  split at hx
  · split at hx
    · exact hx
    · unfold pySliceTo at hx
      split at hx <;> exact (List.take_sublist _ _).subset hx
  · exact hx

theorem applyFilters_sublist (s : List VehicleData) (c : Criteria) :
    (applyFilters s c).Sublist s := by
  have h3 : (refFilters s c).Sublist s := by
    rw [refFilters_eq]
    exact ((List.filter_sublist _).trans (List.filter_sublist _)).trans
      (List.filter_sublist _)
  rw [applyFilters_eq]
  split
  · split
    · exact h3
    · unfold pySliceTo
      split <;> exact (List.take_sublist _ _).trans h3
  · exact h3

theorem applyFilters_idem (s : List VehicleData) (c : Criteria)
    (h : ∀ n, c.MaximumNumberOfVehicles = some n → 0 ≤ n) :
    applyFilters (applyFilters s c) c = applyFilters s c := by
  have hr : refFilters (applyFilters s c) c = applyFilters s c := by
    apply refFilters_of_all
    intro x hx
    exact (mem_refFilters (mem_applyFilters hx)).2
  rw [applyFilters_eq (applyFilters s c) c, hr]
  cases hc : c.MaximumNumberOfVehicles with
  | none => rfl
  | some n =>
    simp only
    by_cases hn : n = 0
    · simp [hn]
    · have h0 : 0 ≤ n := h n hc
      have hne : (n == 0) = false := by simp [hn]
      rw [hne]
      simp only [Bool.false_eq_true, if_false]
      rw [applyFilters_eq s c, hc]
      simp only [hne, Bool.false_eq_true, if_false]
      unfold pySliceTo
      rw [if_pos h0, if_pos h0]
      rw [List.take_take, min_self]

theorem applyFilters_maxcount_zero (s : List VehicleData) (c : Criteria)
    (hc : c.MaximumNumberOfVehicles = some 0) :
    applyFilters s c = refFilters s c := by
  rw [applyFilters_eq, hc]
  rfl

end BodsApi

namespace Api

theorem get_vehicle_data_error (cutoff : PyDatetime) (e : String) :
    get_vehicle_data cutoff (.error e) = [] := rfl

theorem get_vehicle_data_perm (cutoff : PyDatetime) (rows : List DbRow) :
    (get_vehicle_data cutoff (.ok rows)).Perm
      (rows.filter (fun r => cutoff.lexVal < r.recorded_at_time.lexVal)) := by
  unfold get_vehicle_data
  exact List.perm_insertionSort recentFirst _

theorem get_vehicle_data_sorted (cutoff : PyDatetime) (rows : List DbRow) :
    (get_vehicle_data cutoff (.ok rows)).Sorted recentFirst := by
  unfold get_vehicle_data
  exact List.sorted_insertionSort recentFirst _

theorem mem_get_vehicle_data (cutoff : PyDatetime) (rows : List DbRow) (r : DbRow) :
    r ∈ get_vehicle_data cutoff (.ok rows) ↔
      r ∈ rows ∧ cutoff.lexVal < r.recorded_at_time.lexVal := by
  rw [(get_vehicle_data_perm cutoff rows).mem_iff, List.mem_filter]
  simp

theorem snapshot_only_fresh (cutoff : PyDatetime) (db : Except String (List DbRow))
    (r : DbRow) (hr : r ∈ get_vehicle_data cutoff db) :
    cutoff.lexVal < r.recorded_at_time.lexVal := by
  cases db with
  | error e => exact absurd hr (by simp [get_vehicle_data_error])
  | ok rows => exact ((mem_get_vehicle_data cutoff rows r).mp hr).2

@[simp] theorem named_activityElem (n : String) (a : VehicleActivity) :
    XNode.named n (activityElem a) = ("VehicleActivity" == n) := by
  unfold activityElem
  rfl

theorem countActivities_create_siri_xml (sd : ServiceDelivery) :
    countActivities (create_siri_xml sd) =
      sd.vehicle_monitoring_delivery.vehicle_activities.length := by
  unfold countActivities create_siri_xml
  simp only [XNode.descend, XNode.findChild, XNode.children, List.filter_cons,
    List.filter_nil, named_elem, named_leafEl,
    show ("ServiceDelivery" == "ServiceDelivery") = true from rfl,
    show ("ResponseTimestamp" == "ServiceDelivery") = false from rfl,
    show ("ProducerRef" == "ServiceDelivery") = false from rfl,
    show ("VehicleMonitoringDelivery" == "ServiceDelivery") = false from rfl,
    show ("ResponseTimestamp" == "VehicleMonitoringDelivery") = false from rfl,
    show ("ProducerRef" == "VehicleMonitoringDelivery") = false from rfl,
    show ("VehicleMonitoringDelivery" == "VehicleMonitoringDelivery") = true from rfl,
    show ("ResponseTimestamp" == "VehicleActivity") = false from rfl,
    Bool.false_eq_true, reduceIte, List.head?_cons]
  rw [List.filter_eq_self.mpr (fun a ha => by
    rw [List.mem_map] at ha
    obtain ⟨b, _, rfl⟩ := ha
    simp)]
  simp [List.length_map]

theorem siriStructOk_create_siri_xml (sd : ServiceDelivery) :
    siriStructOk (create_siri_xml sd) = true := by
  unfold siriStructOk create_siri_xml
  simp [XNode.attrs, XNode.children, List.filter_cons]

end Api

theorem dtTexts_text_all (fuel : Nat) (s : String) :
    (datetimeTexts fuel (XNode.text s)).all isSiriDatetime = true := by
  cases fuel <;> rfl

theorem dtTexts_leafEl_all (fuel : Nat) (n t : String)
    (h : n ∈ dtFieldNames → isSiriDatetime t = true) :
    (datetimeTexts fuel (leafEl n t)).all isSiriDatetime = true := by
  cases fuel with
  | zero => rfl
  | succ k =>
    unfold leafEl datetimeTexts
    rw [List.all_append]
    simp only [List.flatMap_cons, List.flatMap_nil, List.all_append, List.append_nil]
    rw [dtTexts_text_all]
    simp only [Bool.and_true, List.all_nil]
    split
    · next hmem =>
      simp [h hmem]
    · rfl

theorem dtTexts_strOptLeaf_all (fuel : Nat) (tag : String) (o : Option String)
    (h : tag ∉ dtFieldNames) :
    ((strOptLeaf tag o).flatMap (datetimeTexts fuel)).all isSiriDatetime = true := by
  cases o with
  | none => rfl
  | some s =>
    simp only [strOptLeaf]
    split
    · rw [List.flatMap_cons, List.flatMap_nil, List.append_nil]
      exact dtTexts_leafEl_all fuel tag s (fun hmem => absurd hmem h)
    · rfl

theorem dtTexts_dtOptLeaf_all (fuel : Nat) (ser : PyDatetime → String) (tag : String)
    (o : Option PyDatetime) (hser : ∀ t, isSiriDatetime (ser t) = true) :
    ((dtOptLeaf ser tag o).flatMap (datetimeTexts fuel)).all isSiriDatetime = true := by
  cases o with
  | none => rfl
  | some t =>
    simp only [dtOptLeaf, List.flatMap_cons, List.flatMap_nil, List.append_nil]
    exact dtTexts_leafEl_all fuel tag (ser t) (fun _ => hser t)

theorem dtTexts_floatOptLeaf_all (fuel : Nat) (tag : String) (o : Option PyFloat)
    (h : tag ∉ dtFieldNames) :
    ((floatOptLeaf tag o).flatMap (datetimeTexts fuel)).all isSiriDatetime = true := by
  cases o with
  | none => rfl
  | some v =>
    simp only [floatOptLeaf, List.flatMap_cons, List.flatMap_nil, List.append_nil]
    exact dtTexts_leafEl_all fuel tag v.pyStr (fun hmem => absurd hmem h)

theorem dtTexts_floatOptLeafTruthy_all (fuel : Nat) (tag : String) (o : Option PyFloat)
    (h : tag ∉ dtFieldNames) :
    ((floatOptLeafTruthy tag o).flatMap (datetimeTexts fuel)).all isSiriDatetime = true := by
  cases o with
  | none => rfl
  | some v =>
    simp only [floatOptLeafTruthy]
    split
    · rw [List.flatMap_cons, List.flatMap_nil, List.append_nil]
      exact dtTexts_leafEl_all fuel tag v.pyStr (fun hmem => absurd hmem h)
    · rfl

theorem dtTexts_locElem_all (fuel : Nat) (a b : String) :
    (datetimeTexts fuel (XNode.elem "VehicleLocation" []
      [leafEl "Longitude" a, leafEl "Latitude" b])).all isSiriDatetime = true := by
  cases fuel with
  | zero => rfl
  | succ k =>
    unfold datetimeTexts
    simp only [List.flatMap_cons, List.flatMap_nil, List.all_append, List.append_nil]
    rw [dtTexts_leafEl_all k "Longitude" a (by simp [dtFieldNames]),
      dtTexts_leafEl_all k "Latitude" b (by simp [dtFieldNames])]
    simp [dtFieldNames]

@[simp] theorem dtTexts_zero (x : XNode) : datetimeTexts 0 x = [] := rfl

theorem all_flatMap_forall {l : List XNode} {k : Nat}
    (h : (l.flatMap (datetimeTexts k)).all isSiriDatetime = true) :
    ∀ x ∈ l, ∀ y ∈ datetimeTexts k x, isSiriDatetime y = true := by
  rw [List.all_eq_true] at h
  intro x hx y hy
  exact h y (List.mem_flatMap.mpr ⟨x, hx, hy⟩)

namespace BodsApi

theorem dtTexts_mvjElem_all (fuel : Nat) (v : VehicleData) :
    (datetimeTexts fuel (mvjElem v)).all isSiriDatetime = true := by
  cases fuel with
  | zero => rfl
  | succ k =>
    unfold mvjElem datetimeTexts
    simp [dtFieldNames, List.flatMap_append, List.all_append, List.flatMap_cons,
      List.flatMap_nil, dtTexts_leafEl_all, dtTexts_strOptLeaf_all, dtTexts_dtOptLeaf_all,
      dtTexts_floatOptLeaf_all, dtTexts_locElem_all, dtTexts_text_all, isSiriDatetime_format]
    exact ⟨all_flatMap_forall (dtTexts_strOptLeaf_all k "DestinationName"
        v.destination_name (by simp [dtFieldNames])),
      all_flatMap_forall (dtTexts_dtOptLeaf_all k format_datetime
        "OriginAimedDepartureTime" v.origin_aimed_departure_time isSiriDatetime_format),
      all_flatMap_forall (dtTexts_dtOptLeaf_all k format_datetime
        "DestinationAimedArrivalTime" v.destination_aimed_arrival_time isSiriDatetime_format),
      all_flatMap_forall (dtTexts_floatOptLeaf_all k "Velocity" v.velocity
        (by simp [dtFieldNames])),
      all_flatMap_forall (dtTexts_strOptLeaf_all k "Occupancy" v.occupancy
        (by simp [dtFieldNames]))⟩

theorem dtTexts_activity_all (fuel : Nat) (v : VehicleData) (item_id : String) :
    (datetimeTexts fuel (create_vehicle_activity_xml v item_id)).all isSiriDatetime = true := by
  cases fuel with
  | zero => rfl
  | succ k =>
    unfold create_vehicle_activity_xml datetimeTexts
    simp [dtFieldNames, List.flatMap_append, List.all_append, List.flatMap_cons,
      List.flatMap_nil, dtTexts_leafEl_all, dtTexts_text_all, isSiriDatetime_format,
      dtTexts_mvjElem_all]
    exact all_flatMap_forall (dtTexts_strOptLeaf_all k "ItemIdentifier"
      (some item_id) (by simp [dtFieldNames]))

theorem dtTexts_vmdElem_all (fuel : Nat) (vehicles : List VehicleData)
    (producer_ref : String) (vmdNow vmdValidUntil : PyDatetime) (epochTs : Nat) :
    (datetimeTexts fuel (vmdElem vehicles producer_ref vmdNow vmdValidUntil epochTs)).all
      isSiriDatetime = true := by
  cases fuel with
  | zero => rfl
  | succ k =>
    unfold vmdElem datetimeTexts
    simp [dtFieldNames, List.flatMap_append, List.all_append, List.flatMap_cons,
      List.flatMap_nil, dtTexts_leafEl_all, dtTexts_text_all, isSiriDatetime_format]
    intro x i v2 _ heq z hz
    subst heq
    have h := dtTexts_activity_all k v2 ("MIDL_" ++ toString (i + 1) ++ "_" ++ toString epochTs)
    rw [List.all_eq_true] at h
    exact h z hz

theorem dtTexts_sdElem_all (fuel : Nat) (vehicles : List VehicleData)
    (producer_ref : String) (sdNow vmdNow vmdValidUntil : PyDatetime) (epochTs : Nat) :
    (datetimeTexts fuel (serviceDeliveryElem vehicles producer_ref sdNow vmdNow
      vmdValidUntil epochTs)).all isSiriDatetime = true := by
  cases fuel with
  | zero => rfl
  | succ k =>
    unfold serviceDeliveryElem datetimeTexts
    simp [dtFieldNames, List.flatMap_append, List.all_append, List.flatMap_cons,
      List.flatMap_nil, dtTexts_leafEl_all, dtTexts_text_all, isSiriDatetime_format,
      dtTexts_vmdElem_all]

theorem dtTexts_encode_all (fuel : Nat) (vehicles : List VehicleData)
    (producer_ref : String) (sdNow vmdNow vmdValidUntil : PyDatetime) (epochTs : Nat) :
    (datetimeTexts fuel (create_siri_vehicle_monitoring_response vehicles producer_ref
      sdNow vmdNow vmdValidUntil epochTs)).all isSiriDatetime = true := by
  cases fuel with
  | zero => rfl
  | succ k =>
    unfold create_siri_vehicle_monitoring_response datetimeTexts
    simp [dtFieldNames, List.flatMap_cons, List.flatMap_nil, List.all_append,
      dtTexts_sdElem_all]

end BodsApi

/-- Presence of a tag inside the `MonitoredVehicleJourney` of an activity. -/
def mvjHasChild (a : XNode) (tag : String) : Bool :=
  match a.findChild "MonitoredVehicleJourney" with
  | some m => m.hasChild tag
  | none => false

/-- Text of a tag inside the `MonitoredVehicleJourney` of an activity. -/
def mvjChildText (a : XNode) (tag : String) : Option String :=
  (a.findChild "MonitoredVehicleJourney").bind fun m => m.childText tag

/-- Presence of a tag under a path of the document. -/
def hasChildAt (x : XNode) (path : List String) (tag : String) : Bool :=
  match x.descend path with
  | some m => m.hasChild tag
  | none => false

/-- Text of a tag under a path of the document. -/
def childTextAt (x : XNode) (path : List String) (tag : String) : Option String :=
  (x.descend path).bind fun m => m.childText tag

/-- Sample naive millisecond-aligned timestamp. -/
def dt0 : PyDatetime := ⟨2026, 1, 1, 12, 0, 0, 0, false⟩

/-- A timestamp with sub-millisecond precision (123456 µs). -/
def dtMicro : PyDatetime := ⟨2026, 1, 1, 12, 0, 0, 123456, false⟩

/-- An aware (UTC) timestamp with zero microseconds. -/
def dtAware0 : PyDatetime := ⟨2026, 1, 1, 12, 0, 0, 0, true⟩

def latSample : PyFloat := ⟨false, 52, [4]⟩

def lonSample : PyFloat := ⟨true, 1, [8]⟩

def bearingSample : PyFloat := ⟨false, 45, [0]⟩

/-- A fully populated sample vehicle state. -/
def sampleVehicle : BodsApi.VehicleData :=
  ⟨"V1", "1", "OUT", "L1", "OP", "O1", "ON", "D1", some "DN", none, none,
   latSample, lonSample, bearingSample, some ⟨false, 12, [5]⟩, some "full",
   "B1", "J1", dt0, dt0⟩

/-- The sample vehicle with a sub-millisecond `recordedAt`. -/
def vMicro : BodsApi.VehicleData := { sampleVehicle with recorded_at_time := dtMicro }

/-- The sample vehicle with an empty (but present) required `lineRef`. -/
def vEmptyLine : BodsApi.VehicleData := { sampleVehicle with line_ref := "" }

/-- Query criteria carrying only `MaximumNumberOfVehicles=0`. -/
def c0crit : BodsApi.Criteria := ⟨none, none, none, some 0⟩

/-- A journey whose velocity is exactly `0.0` (set, but falsy). -/
def mvjSample : Api.MonitoredVehicleJourney :=
  ⟨"1", "OUT", "L1", "OP", "O1", "ON", "D1", none, none, none,
   ⟨lonSample, latSample⟩, bearingSample, some pyFloatZero, none, "B1", "J1", "V1"⟩

def actSample : Api.VehicleActivity := ⟨dtAware0, dtAware0, none, mvjSample⟩

def sdSample : Api.ServiceDelivery :=
  ⟨dtAware0, "TICKETER_TRACKER", ⟨dtAware0, "TICKETER_TRACKER", [actSample]⟩⟩

/-- Freshness cutoff 12:00:00 (i.e. `NOW() - 5min` for a call at 12:05). -/
def cutoff2 : PyDatetime := ⟨2026, 1, 1, 12, 0, 0, 0, false⟩

/-- A fresh row for vehicle "V1" recorded at 12:04:00. -/
def rowA : Api.DbRow :=
  ⟨"V1", "1", "OUT", "L1", "OP", "O1", "ON", "D1", none, lonSample, latSample,
   bearingSample, none, none, "B1", "J1", ⟨2026, 1, 1, 12, 4, 0, 0, false⟩,
   ⟨2026, 1, 1, 12, 5, 0, 0, false⟩⟩

/-- A second, older fresh row for the same vehicle "V1" (12:03:00). -/
def rowB : Api.DbRow := { rowA with recorded_at_time := ⟨2026, 1, 1, 12, 3, 0, 0, false⟩ }

/-- The request time 12:05:00. -/
def now3 : PyDatetime := ⟨2026, 1, 1, 12, 5, 0, 0, false⟩

/-- `now3 - 5 minutes`: the SQL freshness cutoff for a call at `now3`. -/
def cutoff3 : PyDatetime := ⟨2026, 1, 1, 12, 0, 0, 0, false⟩

/-- A row recorded at 12:04:00 whose validity expired at 12:04:30,
half a minute before `now3`. -/
def expiredRow : Api.DbRow := { rowA with
  recorded_at_time := ⟨2026, 1, 1, 12, 4, 0, 0, false⟩,
  valid_until_time := ⟨2026, 1, 1, 12, 4, 30, 0, false⟩ }

/-- C1 counterexample: with `MaximumNumberOfVehicles = 0` the truthiness
guard skips truncation, so a one-vehicle snapshot yields one
`VehicleActivity`, not zero as the claim states. -/
theorem C1_counterexample :
    ¬(countActivities (BodsApi.vehicle_monitoring [sampleVehicle] c0crit
        dt0 dt0 dt0 0) = 0) := by
  decide

/-- C1 (amended): with `maxCount = 0` the filter stage treats the bound as
absent (Python falsy check), so the pipeline yields a structurally valid
document containing one `VehicleActivity` per entry surviving the
reference filters — all of them, not zero. -/
theorem C1_maxcount_zero_keeps_all (s : List BodsApi.VehicleData)
    (c : BodsApi.Criteria) (sdNow vmdNow vmdValidUntil : PyDatetime) (epochTs : Nat)
    (hc : c.MaximumNumberOfVehicles = some 0) :
    siriStructOk (BodsApi.vehicle_monitoring s c sdNow vmdNow vmdValidUntil epochTs) = true ∧
      countActivities (BodsApi.vehicle_monitoring s c sdNow vmdNow vmdValidUntil epochTs) =
        (BodsApi.refFilters s c).length := by
  unfold BodsApi.vehicle_monitoring
  rw [BodsApi.applyFilters_maxcount_zero s c hc]
  exact ⟨BodsApi.siriStructOk_encode _ _ _ _ _ _,
    BodsApi.countActivities_encode _ _ _ _ _ _⟩

/-- C1 witness: the amended claim at a concrete one-vehicle snapshot. -/
theorem C1_witness :
    siriStructOk (BodsApi.vehicle_monitoring [sampleVehicle] c0crit dt0 dt0 dt0 0) = true ∧
      countActivities (BodsApi.vehicle_monitoring [sampleVehicle] c0crit dt0 dt0 dt0 0) =
        (BodsApi.refFilters [sampleVehicle] c0crit).length :=
  C1_maxcount_zero_keeps_all [sampleVehicle] c0crit dt0 dt0 dt0 0 rfl

/-- C2 counterexample: two fresh repository rows sharing vehicleRef "V1"
both appear in the live snapshot — the code never collapses by
`vehicleRef`, refuting "at most one entry per vehicleRef". -/
theorem C2_counterexample :
    rowA.vehicle_ref = "V1" ∧ rowB.vehicle_ref = "V1" ∧
      ¬(((Api.get_vehicle_data cutoff2 (Except.ok [rowA, rowB])).filter
          (fun r => r.vehicle_ref == "V1")).length ≤ 1) := by
  decide

/-- C2 (amended): the live snapshot is exactly the rows inside the
freshness window (duplicates per vehicleRef included, no collapse),
returned in most-recent-first order. -/
theorem C2_snapshot_fresh_sorted_no_dedup (cutoff : PyDatetime)
    (rows : List Api.DbRow) :
    (Api.get_vehicle_data cutoff (Except.ok rows)).Perm
        (rows.filter (fun r => cutoff.lexVal < r.recorded_at_time.lexVal)) ∧
      (Api.get_vehicle_data cutoff (Except.ok rows)).Sorted Api.recentFirst :=
  ⟨Api.get_vehicle_data_perm cutoff rows, Api.get_vehicle_data_sorted cutoff rows⟩

/-- C3 counterexample: a row whose `validUntil` (12:04:30) precedes the
request time `now3` (12:05:00) still appears in the snapshot taken at
`now3` (cutoff `now3 - 5min`), because the query checks only
`recordedAt`. -/
theorem C3_counterexample :
    expiredRow ∈ Api.get_vehicle_data cutoff3 (Except.ok [expiredRow]) ∧
      expiredRow.valid_until_time.lexVal < now3.lexVal ∧
      now3.lexVal = cutoff3.lexVal + 300000000 := by
  decide

/-- C3 (amended): the live snapshot honours only the five-minute
`recordedAt` freshness cutoff; every returned row is strictly fresher
than the cutoff (while `validUntil` is never consulted). -/
theorem C3_snapshot_only_fresh (cutoff : PyDatetime)
    (db : Except String (List Api.DbRow)) (r : Api.DbRow)
    (hr : r ∈ Api.get_vehicle_data cutoff db) :
    cutoff.lexVal < r.recorded_at_time.lexVal :=
  Api.snapshot_only_fresh cutoff db r hr

/-- C3 witness: the amended claim at a concrete fresh row. -/
theorem C3_witness : cutoff3.lexVal < rowA.recorded_at_time.lexVal :=
  C3_snapshot_only_fresh cutoff3 (Except.ok [rowA]) rowA (by decide)

/-- C4 counterexample: the api encoder serializes datetimes with Python
`isoformat()` — an aware zero-microsecond timestamp renders as
`2026-01-01T12:00:00+00:00`, which is not the claimed
`YYYY-MM-DDTHH:MM:SS.mmmZ` shape. -/
theorem C4_counterexample :
    childTextAt (Api.create_siri_xml sdSample) ["ServiceDelivery"] "ResponseTimestamp" =
        some "2026-01-01T12:00:00+00:00" ∧
      isSiriDatetime "2026-01-01T12:00:00+00:00" = false ∧
      (datetimeTexts 10 (Api.create_siri_xml sdSample)).all isSiriDatetime = false := by
  decide

/-- C4 (amended): in documents produced by the bods-api encoder every
serialized datetime field (RecordedAtTime, ValidUntilTime,
ResponseTimestamp, the aimed times) has the exact
`YYYY-MM-DDTHH:MM:SS.mmmZ` shape; the api encoder's `isoformat()` output
does not. -/
theorem C4_bods_datetimes_millisZ (fuel : Nat) (vehicles : List BodsApi.VehicleData)
    (producer_ref : String) (sdNow vmdNow vmdValidUntil : PyDatetime) (epochTs : Nat) :
    (datetimeTexts fuel (BodsApi.create_siri_vehicle_monitoring_response vehicles
      producer_ref sdNow vmdNow vmdValidUntil epochTs)).all isSiriDatetime = true :=
  BodsApi.dtTexts_encode_all fuel vehicles producer_ref sdNow vmdNow vmdValidUntil epochTs

/-- C5 counterexample: the api encoder guards `Velocity` with Python
truthiness, so a journey whose velocity is set to `0.0` gets no
`Velocity` element (while `Bearing` shows the path resolves). -/
theorem C5_counterexample :
    mvjSample.velocity = some pyFloatZero ∧ pyFloatZero.pyStr = "0.0" ∧
      hasChildAt (Api.create_siri_xml sdSample)
        ["ServiceDelivery", "VehicleMonitoringDelivery", "VehicleActivity",
         "MonitoredVehicleJourney"] "Bearing" = true ∧
      hasChildAt (Api.create_siri_xml sdSample)
        ["ServiceDelivery", "VehicleMonitoringDelivery", "VehicleActivity",
         "MonitoredVehicleJourney"] "Velocity" = false := by
  decide

/-- C5 (amended): in the bods-api encoder, `Velocity` is `None`-checked —
present iff the field is set, with text `str(velocity)` (so `0.0`
serializes as "0.0"); the aimed times are present iff set; the string
optionals `DestinationName`, `Occupancy` and `ItemIdentifier` are
truthiness-checked — present iff set and nonempty; an unset optional
never yields an element.  (The api encoder instead drops a `0.0`
velocity, per the counterexample.) -/
theorem C5_bods_optional_presence (v : BodsApi.VehicleData) (item_id : String) :
    mvjHasChild (BodsApi.create_vehicle_activity_xml v item_id) "Velocity" =
        v.velocity.isSome ∧
      mvjChildText (BodsApi.create_vehicle_activity_xml v item_id) "Velocity" =
        v.velocity.map PyFloat.pyStr ∧
      mvjHasChild (BodsApi.create_vehicle_activity_xml v item_id) "DestinationName" =
        optStrTruthy v.destination_name ∧
      mvjHasChild (BodsApi.create_vehicle_activity_xml v item_id) "Occupancy" =
        optStrTruthy v.occupancy ∧
      mvjHasChild (BodsApi.create_vehicle_activity_xml v item_id)
        "OriginAimedDepartureTime" = v.origin_aimed_departure_time.isSome ∧
      mvjHasChild (BodsApi.create_vehicle_activity_xml v item_id)
        "DestinationAimedArrivalTime" = v.destination_aimed_arrival_time.isSome ∧
      (BodsApi.create_vehicle_activity_xml v item_id).hasChild "ItemIdentifier" =
        !item_id.isEmpty := by
  unfold mvjHasChild mvjChildText
  rw [BodsApi.act_findChild_mvj]
  exact ⟨BodsApi.mvj_hasChild_Velocity v, BodsApi.mvj_childText_Velocity v,
    BodsApi.mvj_hasChild_DestinationName v, BodsApi.mvj_hasChild_Occupancy v,
    BodsApi.mvj_hasChild_OriginAimedDepartureTime v,
    BodsApi.mvj_hasChild_DestinationAimedArrivalTime v,
    BodsApi.act_hasChild_ItemIdentifier v item_id⟩

/-- C6: when the position store raises, `get_vehicle_data` returns `[]`
and the feed endpoint still answers 200 with a structurally valid
SIRI-VM document containing zero `VehicleActivity` elements. -/
theorem C6_repo_error_returns_200_empty (e : String)
    (nowSD nowVMD cutoff : PyDatetime) :
    (Api.get_vehicle_monitoring nowSD nowVMD cutoff (Except.error e)).1 = 200 ∧
      siriStructOk (Api.get_vehicle_monitoring nowSD nowVMD cutoff (Except.error e)).2 =
        true ∧
      countActivities (Api.get_vehicle_monitoring nowSD nowVMD cutoff
        (Except.error e)).2 = 0 := by
  unfold Api.get_vehicle_monitoring
  simp [Api.get_vehicle_data_error, Api.siriStructOk_create_siri_xml,
    Api.countActivities_create_siri_xml]

/-- C7 counterexample: the encoder performs no required-field validation:
a vehicle whose required `lineRef` is the empty string is serialized
without any error, silently emitting an empty `LineRef` element (and no
`EncodingError` type exists anywhere in the repository). -/
theorem C7_counterexample :
    vEmptyLine.line_ref = "" ∧
      mvjChildText (BodsApi.create_vehicle_activity_xml vEmptyLine "item1") "LineRef" =
        some "" := by
  constructor
  · rfl
  · unfold mvjChildText
    rw [BodsApi.act_findChild_mvj]
    exact BodsApi.mvj_childText_LineRef vEmptyLine

/-- C7 (amended): encoding is a total function that never raises: every
required field is copied into its element verbatim — including empty
strings, which become empty required elements.  Required-field absence is
unrepresentable only because the upstream `VehicleData` model types the
fields as non-optional. -/
theorem C7_encoder_emits_required_verbatim (v : BodsApi.VehicleData) (item_id : String) :
    mvjChildText (BodsApi.create_vehicle_activity_xml v item_id) "LineRef" =
        some v.line_ref ∧
      mvjChildText (BodsApi.create_vehicle_activity_xml v item_id) "OperatorRef" =
        some v.operator_ref ∧
      mvjChildText (BodsApi.create_vehicle_activity_xml v item_id) "VehicleRef" =
        some v.vehicle_ref ∧
      mvjChildText (BodsApi.create_vehicle_activity_xml v item_id) "BlockRef" =
        some v.block_ref ∧
      mvjChildText (BodsApi.create_vehicle_activity_xml v item_id) "VehicleJourneyRef" =
        some v.vehicle_journey_ref ∧
      mvjChildText (BodsApi.create_vehicle_activity_xml v item_id) "DirectionRef" =
        some v.direction_ref ∧
      mvjChildText (BodsApi.create_vehicle_activity_xml v item_id) "Bearing" =
        some v.bearing.pyStr := by
  unfold mvjChildText
  rw [BodsApi.act_findChild_mvj]
  exact ⟨BodsApi.mvj_childText_LineRef v, BodsApi.mvj_childText_OperatorRef v,
    BodsApi.mvj_childText_VehicleRef v, BodsApi.mvj_childText_BlockRef v,
    BodsApi.mvj_childText_VehicleJourneyRef v, BodsApi.mvj_childText_DirectionRef v,
    BodsApi.mvj_childText_Bearing v⟩

/-- C8 counterexample: a vehicle whose `recordedAt` carries 123456 µs does
not round-trip — the serialization keeps milliseconds only, so decoding
returns a state with 123000 µs. -/
theorem C8_counterexample :
    BodsApi.decode (BodsApi.create_siri_vehicle_monitoring_response [vMicro]
        "MIDLANDBUS" dt0 dt0 dt0 0) ≠ some [vMicro] := by
  decide

/-- C8 (amended): `decode (encode x) = x` for every vehicle list whose
states are round-trippable: millisecond-aligned naive datetimes,
digit-valued decimal numerics, and no set-but-empty optional strings
(precisely the values the encoder serializes injectively). -/
theorem C8_roundtrip (vehicles : List BodsApi.VehicleData) (producer_ref : String)
    (sdNow vmdNow vmdValidUntil : PyDatetime) (epochTs : Nat)
    (h : ∀ v ∈ vehicles, v.roundtrippable = true) :
    BodsApi.decode (BodsApi.create_siri_vehicle_monitoring_response vehicles
      producer_ref sdNow vmdNow vmdValidUntil epochTs) = some vehicles :=
  BodsApi.decode_encode vehicles producer_ref sdNow vmdNow vmdValidUntil epochTs h

/-- C8 witness: the round trip at a concrete one-vehicle list. -/
theorem C8_witness :
    BodsApi.decode (BodsApi.create_siri_vehicle_monitoring_response [sampleVehicle]
      "MIDLANDBUS" dt0 dt0 dt0 0) = some [sampleVehicle] :=
  C8_roundtrip [sampleVehicle] "MIDLANDBUS" dt0 dt0 dt0 0 (by decide)

/-- C9: the `/vehicle-monitoring` filter stage is idempotent for criteria
whose `MaximumNumberOfVehicles` is absent or nonnegative (the spec's
domain), and its output preserves the relative input order (it is a
sublist of the snapshot). -/
theorem C9_filter_idempotent_order (s : List BodsApi.VehicleData)
    (c : BodsApi.Criteria)
    (h : ∀ n, c.MaximumNumberOfVehicles = some n → 0 ≤ n) :
    BodsApi.applyFilters (BodsApi.applyFilters s c) c = BodsApi.applyFilters s c ∧
      (BodsApi.applyFilters s c).Sublist s :=
  ⟨BodsApi.applyFilters_idem s c h, BodsApi.applyFilters_sublist s c⟩

/-- C9 witness: idempotence and order preservation at a concrete snapshot
and criteria. -/
theorem C9_witness :
    BodsApi.applyFilters (BodsApi.applyFilters [sampleVehicle, vEmptyLine]
        ⟨some "1", none, none, some 1⟩) ⟨some "1", none, none, some 1⟩ =
      BodsApi.applyFilters [sampleVehicle, vEmptyLine] ⟨some "1", none, none, some 1⟩ ∧
      (BodsApi.applyFilters [sampleVehicle, vEmptyLine]
        ⟨some "1", none, none, some 1⟩).Sublist [sampleVehicle, vEmptyLine] :=
  C9_filter_idempotent_order [sampleVehicle, vEmptyLine] ⟨some "1", none, none, some 1⟩
    (fun n hn => by injection hn with h2; omega)

/-- C10: a negative `MaximumNumberOfVehicles = -k` is neither rejected nor
mapped to an empty result: the stage applies Python negative-slice
semantics, returning the reference-filtered snapshot with its last `k`
entries removed (so it is nonempty whenever `k` is less than the filtered
length). -/
theorem C10_negative_slice (s : List BodsApi.VehicleData) (c : BodsApi.Criteria)
    (k : Nat) (hk : 0 < k) (hc : c.MaximumNumberOfVehicles = some (-(k : Int))) :
    BodsApi.applyFilters s c =
        (BodsApi.refFilters s c).take ((BodsApi.refFilters s c).length - k) ∧
      (k < (BodsApi.refFilters s c).length → BodsApi.applyFilters s c ≠ []) := by
  have hkz : (-(k : Int)) ≠ 0 := by omega
  have hne : ((-(k : Int)) == 0) = false := beq_eq_false_iff_ne.mpr hkz
  have hneg : ¬(0 ≤ -(k : Int)) := by omega
  have ht : (-(-(k : Int))).toNat = k := by omega
  have hmain : BodsApi.applyFilters s c =
      (BodsApi.refFilters s c).take ((BodsApi.refFilters s c).length - k) := by
    rw [BodsApi.applyFilters_eq, hc]
    simp only [hne, Bool.false_eq_true, if_false]
    unfold BodsApi.pySliceTo
    rw [if_neg hneg, ht]
  refine ⟨hmain, fun hlen => ?_⟩
  rw [hmain]
  apply List.ne_nil_of_length_pos
  rw [List.length_take]
  omega

/-- C10 witness: dropping the last entry (`k = 1`) of a two-vehicle
snapshot leaves the first entry. -/
theorem C10_witness :
    BodsApi.applyFilters [sampleVehicle, vEmptyLine] ⟨none, none, none, some (-1)⟩ =
        (BodsApi.refFilters [sampleVehicle, vEmptyLine] ⟨none, none, none, some (-1)⟩).take
          ((BodsApi.refFilters [sampleVehicle, vEmptyLine]
            ⟨none, none, none, some (-1)⟩).length - 1) ∧
      (1 < (BodsApi.refFilters [sampleVehicle, vEmptyLine]
          ⟨none, none, none, some (-1)⟩).length →
        BodsApi.applyFilters [sampleVehicle, vEmptyLine]
          ⟨none, none, none, some (-1)⟩ ≠ []) :=
  C10_negative_slice [sampleVehicle, vEmptyLine] ⟨none, none, none, some (-1)⟩ 1
    (by decide) rfl
